import Mathlib

/-!
Verification of the go-graphql AST model (src/model) and traversal engine
(src/visitor/visitor.go).

Modelling conventions:
* Go channels used as one-shot iterators are fully populated (in insertion
  order) and closed before any consumption starts, so they are modelled as
  Lean `List`s; `len(ch)` is `List.length`.
* Callbacks are arbitrary client code; a single run of a callback slot is
  modelled as a response function that sees the trace of callback
  invocations made so far plus its node argument and returns an optional
  error (`none` = Go `nil`).
* The engine itself records every callback invocation as an `Event`, so the
  first component of each visit function's result is the invocation trace.
* `errors.Wrap err msg` from github.com/pkg/errors is `GoErr.wrap msg err`;
  the wrapper value does not itself implement the `Pruner` interface.
-/

namespace GraphQL

/-- GraphQL types (model.NamedType / model.ListType); both carry a
nullability flag, named types carry a name. -/
inductive GType where
  | named (name : String) (nullable : Bool)
  | listOf (elem : GType) (nullable : Bool)

/-- GraphQL literal values (model.IntValue, model.FloatValue, ...).
The float64 payload of FloatValue is never read by the traversal engine and
is not modelled. -/
inductive GValue where
  | intV (v : Int)
  | floatV
  | stringV (v : String)
  | boolV (v : Bool)
  | nullV
  | enumV (name : String)
  | variableV (name : String)
  | objectV (fields : List (String × GValue))

/-- model.Argument: a name plus a value. -/
structure Argument where
  name : String
  value : GValue

/-- model.Directive: a name plus ordered arguments. -/
structure Directive where
  name : String
  arguments : List Argument

/-- model.VariableDefinition: name, declared type, optional default value. -/
structure VariableDefinition where
  name : String
  typ : GType
  defaultValue : Option GValue

/-- model.FragmentSpread: fragment name plus directives. -/
structure FragmentSpread where
  name : String
  directives : List Directive

mutual

/-- model.Selection: closed variant over field / fragment spread / inline
fragment. -/
inductive Selection where
  | field (f : SelectionField)
  | fragmentSpread (f : FragmentSpread)
  | inlineFragment (f : InlineFragment)

/-- model.SelectionList: the ordered sequence of selections (declared as its
own list type so that the mutual recursion with Selection stays structural;
`SelectionList.toList` recovers the plain list view). -/
inductive SelectionList where
  | nil
  | cons (s : Selection) (rest : SelectionList)

/-- Modelled from the spec: the concrete model.SelectionField declaration is
not under src/ (only its accessors' callers are); per spec §3 it has a name,
an optional alias, ordered Arguments, ordered Directives and ordered nested
Selections. -/
inductive SelectionField where
  | mk (name : String) (aliasName : Option String) (arguments : List Argument)
       (directives : List Directive) (selections : SelectionList)

/-- model.InlineFragment: optional target type, directives, selections. -/
inductive InlineFragment where
  | mk (typ : Option GType) (directives : List Directive)
       (selections : SelectionList)

end

/-- The number of buffered elements (`len(ch)`) of a selection channel. -/
def SelectionList.length : SelectionList → Nat
  | .nil => 0
  | .cons _ rest => 1 + rest.length

/-- The plain-list view of a SelectionList, in insertion order. -/
def SelectionList.toList : SelectionList → List Selection
  | .nil => []
  | .cons s rest => s :: rest.toList

def SelectionField.name : SelectionField → String
  | .mk n _ _ _ _ => n

def SelectionField.directives : SelectionField → List Directive
  | .mk _ _ _ ds _ => ds

def SelectionField.selections : SelectionField → SelectionList
  | .mk _ _ _ _ ss => ss

def InlineFragment.directives : InlineFragment → List Directive
  | .mk _ ds _ => ds

def InlineFragment.selections : InlineFragment → SelectionList
  | .mk _ _ ss => ss

/-- model.OperationType: "query" or "mutation". -/
inductive OperationType where
  | query
  | mutation

/-- model.OperationDefinition: operation type, optional name, ordered
variable definitions, directives and selections. -/
structure OperationDefinition where
  typ : OperationType
  name : Option String
  variableDefinitions : List VariableDefinition
  directives : List Directive
  selections : SelectionList

/-- model.FragmentDefinition: name, "on Type" target, directives,
selections. -/
structure FragmentDefinition where
  name : String
  typ : GType
  directives : List Directive
  selections : SelectionList

/-- model.ObjectFieldArgumentDefinition: name, type, optional default. -/
structure ObjectFieldArgumentDefinition where
  name : String
  typ : GType
  defaultValue : Option GValue

/-- model.ObjectFieldDefinition: name, type, ordered argument
definitions. -/
structure ObjectFieldDefinition where
  name : String
  typ : GType
  arguments : List ObjectFieldArgumentDefinition

/-- model.ObjectDefinition: name, nullability, ordered field definitions,
optional implemented interface. -/
structure ObjectDefinition where
  name : String
  nullable : Bool
  fields : List ObjectFieldDefinition
  implements : Option GType

/-- model.InterfaceFieldDefinition: name plus type. -/
structure InterfaceFieldDefinition where
  name : String
  typ : GType

/-- model.InterfaceDefinition: name, nullability, ordered fields. -/
structure InterfaceDefinition where
  name : String
  nullable : Bool
  fields : List InterfaceFieldDefinition

/-- model.EnumElementDefinition: name plus value. -/
structure EnumElementDefinition where
  name : String
  value : GValue

/-- model.EnumDefinition: name plus ordered elements. -/
structure EnumDefinition where
  name : String
  elements : List EnumElementDefinition

/-- model.UnionDefinition: name plus ordered member types. -/
structure UnionDefinition where
  name : String
  types : List GType

/-- model.InputFieldDefinition: name plus (possibly unset) type. -/
structure InputFieldDefinition where
  name : String
  typ : Option GType

/-- model.InputDefinition: name plus ordered input field definitions. -/
structure InputDefinition where
  name : String
  fields : List InputFieldDefinition

/-- model.Definition: the closed variant over the seven definition kinds
that the engine's type switch in visitDefinition dispatches over. -/
inductive Definition where
  | operation (o : OperationDefinition)
  | fragment (f : FragmentDefinition)
  | object (o : ObjectDefinition)
  | iface (i : InterfaceDefinition)
  | enum (e : EnumDefinition)
  | union (u : UnionDefinition)
  | input (i : InputDefinition)

/-- model.Document: ordered sequence of definitions. -/
structure Document where
  definitions : List Definition

/-- model.Schema: the designated query-root ObjectDefinition plus the
ordered sequence of other type ObjectDefinitions. -/
structure Schema where
  query : ObjectDefinition
  types : List ObjectDefinition

/-- The `interface{}` argument of visitor.Visit: a Document, a Schema, or
any other Go value (carrying only the `%T` description used in the error
message). -/
inductive VisitInput where
  | document (d : Document)
  | schema (s : Schema)
  | other (description : String)

/-- A Go error value as the engine can observe it:
`simple` is a plain error (errors.Errorf or any client error that does not
implement Pruner), `pruner` is a client error whose dynamic type implements
the Pruner interface (with the given Prune() result), and `wrap` is
errors.Wrap, whose wrapper type does not implement Pruner but preserves the
wrapped error as its cause. -/
inductive GoErr where
  | simple (msg : String)
  | pruner (msg : String) (prune : Bool)
  | wrap (msg : String) (cause : GoErr)

/-- visitor.isPruneError: type-asserts the error to the Pruner interface;
on success the engine reads Prune().  Wrapped errors do not satisfy the
assertion. -/
def isPruneError : GoErr → Option Bool
  | .pruner _ b => some b
  | _ => none

/-- The underlying cause of a possibly-wrapped error (what
errors.Cause from github.com/pkg/errors recovers). -/
def rootCause : GoErr → GoErr
  | .wrap _ e => rootCause e
  | e => e

/-- One callback invocation performed by the engine: which Handler field was
called and (for node callbacks) with which node. -/
inductive Event where
  | enterSchema (v : Schema)
  | leaveSchema (v : Schema)
  | enterDocument (v : Document)
  | leaveDocument (v : Document)
  | enterDefinitionList
  | leaveDefinitionList
  | enterDefinition (v : Definition)
  | leaveDefinition (v : Definition)
  | enterDirectiveList
  | leaveDirectiveList
  | enterDirective (v : Directive)
  | leaveDirective (v : Directive)
  | enterOperationDefinition (v : OperationDefinition)
  | leaveOperationDefinition (v : OperationDefinition)
  | enterFragmentDefinition (v : FragmentDefinition)
  | leaveFragmentDefinition (v : FragmentDefinition)
  | enterObjectDefinition (v : ObjectDefinition)
  | leaveObjectDefinition (v : ObjectDefinition)
  | enterObjectFieldDefinitionList
  | leaveObjectFieldDefinitionList
  | enterObjectFieldDefinition (v : ObjectFieldDefinition)
  | leaveObjectFieldDefinition (v : ObjectFieldDefinition)
  | enterInterfaceDefinition (v : InterfaceDefinition)
  | leaveInterfaceDefinition (v : InterfaceDefinition)
  | enterInterfaceFieldDefinition (v : InterfaceFieldDefinition)
  | leaveInterfaceFieldDefinition (v : InterfaceFieldDefinition)
  | enterEnumDefinition (v : EnumDefinition)
  | leaveEnumDefinition (v : EnumDefinition)
  | enterUnionDefinition (v : UnionDefinition)
  | leaveUnionDefinition (v : UnionDefinition)
  | enterInputDefinition (v : InputDefinition)
  | leaveInputDefinition (v : InputDefinition)
  | enterInputFieldDefinitionList
  | leaveInputFieldDefinitionList
  | enterInputFieldDefinition (v : InputFieldDefinition)
  | leaveInputFieldDefinition (v : InputFieldDefinition)
  | enterSelectionList
  | leaveSelectionList
  | enterSelection (v : Selection)
  | leaveSelection (v : Selection)
  | enterSelectionField (v : SelectionField)
  | leaveSelectionField (v : SelectionField)
  | enterFragmentSpread (v : FragmentSpread)
  | leaveFragmentSpread (v : FragmentSpread)
  | enterInlineFragment (v : InlineFragment)
  | leaveInlineFragment (v : InlineFragment)
  | enterSchemaQuery (v : ObjectDefinition)
  | leaveSchemaQuery (v : ObjectDefinition)

/-- A registered node callback: given the trace of invocations made before
this one and the node, the error the callback returns on this run. -/
abbrev Callback (α : Type) := List Event → α → Option GoErr

/-- A registered list-level callback (takes only the context in Go). -/
abbrev Callback0 := List Event → Option GoErr

/-- visitor.Handler: one optional enter and one optional leave callback per
node kind and per list grouping, exactly the fields of the Go struct. -/
structure Handler where
  EnterSchema : Option (Callback Schema) := none
  LeaveSchema : Option (Callback Schema) := none
  EnterDocument : Option (Callback Document) := none
  EnterDefinitionList : Option Callback0 := none
  LeaveDefinitionList : Option Callback0 := none
  EnterDefinition : Option (Callback Definition) := none
  EnterDirectiveList : Option Callback0 := none
  EnterDirective : Option (Callback Directive) := none
  EnterOperationDefinition : Option (Callback OperationDefinition) := none
  EnterFragmentDefinition : Option (Callback FragmentDefinition) := none
  EnterObjectDefinition : Option (Callback ObjectDefinition) := none
  EnterObjectFieldDefinitionList : Option Callback0 := none
  LeaveObjectFieldDefinitionList : Option Callback0 := none
  EnterObjectFieldDefinition : Option (Callback ObjectFieldDefinition) := none
  EnterInterfaceDefinition : Option (Callback InterfaceDefinition) := none
  EnterInterfaceFieldDefinition : Option (Callback InterfaceFieldDefinition) := none
  EnterEnumDefinition : Option (Callback EnumDefinition) := none
  EnterUnionDefinition : Option (Callback UnionDefinition) := none
  EnterInputDefinition : Option (Callback InputDefinition) := none
  EnterInputFieldDefinitionList : Option Callback0 := none
  EnterInputFieldDefinition : Option (Callback InputFieldDefinition) := none
  EnterSelectionList : Option Callback0 := none
  EnterSelection : Option (Callback Selection) := none
  EnterSelectionField : Option (Callback SelectionField) := none
  EnterFragmentSpread : Option (Callback FragmentSpread) := none
  EnterInlineFragment : Option (Callback InlineFragment) := none
  EnterSchemaQuery : Option (Callback ObjectDefinition) := none
  LeaveSchemaQuery : Option (Callback ObjectDefinition) := none
  LeaveDocument : Option (Callback Document) := none
  LeaveDefinition : Option (Callback Definition) := none
  LeaveDirectiveList : Option Callback0 := none
  LeaveDirective : Option (Callback Directive) := none
  LeaveOperationDefinition : Option (Callback OperationDefinition) := none
  LeaveFragmentDefinition : Option (Callback FragmentDefinition) := none
  LeaveObjectDefinition : Option (Callback ObjectDefinition) := none
  LeaveObjectFieldDefinition : Option (Callback ObjectFieldDefinition) := none
  LeaveInterfaceDefinition : Option (Callback InterfaceDefinition) := none
  LeaveInterfaceFieldDefinition : Option (Callback InterfaceFieldDefinition) := none
  LeaveEnumDefinition : Option (Callback EnumDefinition) := none
  LeaveUnionDefinition : Option (Callback UnionDefinition) := none
  LeaveInputDefinition : Option (Callback InputDefinition) := none
  LeaveInputFieldDefinitionList : Option Callback0 := none
  LeaveInputFieldDefinition : Option (Callback InputFieldDefinition) := none
  LeaveSelectionList : Option Callback0 := none
  LeaveSelection : Option (Callback Selection) := none
  LeaveSelectionField : Option (Callback SelectionField) := none
  LeaveFragmentSpread : Option (Callback FragmentSpread) := none
  LeaveInlineFragment : Option (Callback InlineFragment) := none

/-- The Go pattern `if hfunc := h.X; hfunc != nil { err := hfunc(ctx, v) }`:
invoke the callback if registered, recording the invocation in the trace. -/
def invoke1 {α : Type} (f : Option (Callback α)) (ev : α → Event)
    (log : List Event) (v : α) : List Event × Option GoErr :=
  match f with
  | none => (log, none)
  | some f => (log ++ [ev v], f log v)

/-- `invoke1` for list-level callbacks, which take no node argument. -/
def invoke0 (f : Option Callback0) (ev : Event) (log : List Event) :
    List Event × Option GoErr :=
  match f with
  | none => (log, none)
  | some f => (log ++ [ev], f log)

/-- The Go pattern `if err := hfunc(ctx, v); err != nil { return
errors.Wrap(err, msg) }` used by every leave handler and by the enter
handlers that do not consult the Pruner interface. -/
def invokeWrap1 {α : Type} (f : Option (Callback α)) (ev : α → Event)
    (msg : String) (log : List Event) (v : α) : List Event × Option GoErr :=
  match invoke1 f ev log v with
  | (log, none) => (log, none)
  | (log, some e) => (log, some (.wrap msg e))

/-- `invokeWrap1` for list-level callbacks. -/
def invokeWrap0 (f : Option Callback0) (ev : Event) (msg : String)
    (log : List Event) : List Event × Option GoErr :=
  match invoke0 f ev log with
  | (log, none) => (log, none)
  | (log, some e) => (log, some (.wrap msg e))

/-- Outcome of an enter handler that consults the Pruner interface:
either a fatal (already wrapped) error, or proceed with a prune flag. -/
inductive EnterRes where
  | fatal (e : GoErr)
  | go (prune : Bool)

/-- The Go pattern shared by the pruning enter handlers: call the handler if
registered; a nil error or an absent handler proceeds unpruned; a Pruner
error proceeds with its Prune() value; any other error is fatal, wrapped
with the stage message. -/
def enterStep1 {α : Type} (f : Option (Callback α)) (ev : α → Event)
    (msg : String) (log : List Event) (v : α) : List Event × EnterRes :=
  match invoke1 f ev log v with
  | (log, none) => (log, .go false)
  | (log, some e) =>
    match isPruneError e with
    | some b => (log, .go b)
    | none => (log, .fatal (.wrap msg e))

/-- `enterStep1` for list-level callbacks (used only by
visitInputFieldDefinitionList in the source). -/
def enterStep0 (f : Option Callback0) (ev : Event) (msg : String)
    (log : List Event) : List Event × EnterRes :=
  match invoke0 f ev log with
  | (log, none) => (log, .go false)
  | (log, some e) =>
    match isPruneError e with
    | some b => (log, .go b)
    | none => (log, .fatal (.wrap msg e))

/-- The Go pattern `if err := visitChild(...); err != nil { return
errors.Wrap(err, msg) }` applied to a child visit's result. -/
def wrapStep (msg : String) : List Event × Option GoErr → List Event × Option GoErr
  | (log, none) => (log, none)
  | (log, some e) => (log, some (.wrap msg e))

/-- visitor.visitDirective (lines 416-429): enter and leave only; any error
from the enter handler, prune errors included, is returned wrapped. -/
def visitDirective (h : Handler) (log : List Event) (v : Directive) :
    List Event × Option GoErr :=
  match invokeWrap1 h.EnterDirective Event.enterDirective
      "failed to visit directive (enter)" log v with
  | (log, some e) => (log, some e)
  | (log, none) =>
    invokeWrap1 h.LeaveDirective Event.leaveDirective
      "failed to visit directive (leave)" log v

/-- The `for dir := range ch` loop of visitor.visitDirectiveList. -/
def visitDirectiveListLoop (h : Handler) (log : List Event)
    (ch : List Directive) : List Event × Option GoErr :=
  match ch with
  | [] => (log, none)
  | d :: rest =>
    match visitDirective h log d with
    | (log, some e) => (log, some (.wrap "failed to visit directive" e))
    | (log, none) => visitDirectiveListLoop h log rest

/-- visitor.visitDirectiveList (lines 391-414): empty guard, list enter,
elements, list leave. -/
def visitDirectiveList (h : Handler) (log : List Event)
    (ch : List Directive) : List Event × Option GoErr :=
  if ch.length = 0 then (log, none)
  else
    match invokeWrap0 h.EnterDirectiveList Event.enterDirectiveList
        "failed to visit directive list (enter)" log with
    | (log, some e) => (log, some e)
    | (log, none) =>
      match visitDirectiveListLoop h log ch with
      | (log, some e) => (log, some e)
      | (log, none) =>
        invokeWrap0 h.LeaveDirectiveList Event.leaveDirectiveList
          "failed to visit directive list (leave)" log

/-- visitor.visitFragmentSpread (lines 431-443). -/
def visitFragmentSpread (h : Handler) (log : List Event) (v : FragmentSpread) :
    List Event × Option GoErr :=
  match invokeWrap1 h.EnterFragmentSpread Event.enterFragmentSpread
      "failed to visit fragment spread (enter)" log v with
  | (log, some e) => (log, some e)
  | (log, none) =>
    invokeWrap1 h.LeaveFragmentSpread Event.leaveFragmentSpread
      "failed to visit fragment spread (leave)" log v

/-- visitor.visitObjectFieldDefinition (lines 581-595). -/
def visitObjectFieldDefinition (h : Handler) (log : List Event)
    (v : ObjectFieldDefinition) : List Event × Option GoErr :=
  match invokeWrap1 h.EnterObjectFieldDefinition Event.enterObjectFieldDefinition
      "failed to visit object field definition (enter)" log v with
  | (log, some e) => (log, some e)
  | (log, none) =>
    invokeWrap1 h.LeaveObjectFieldDefinition Event.leaveObjectFieldDefinition
      "failed to visit object field definition (leave)" log v

/-- The `for field := range ch` loop of visitor.visitObjectFieldDefinitionList. -/
def visitObjectFieldDefinitionListLoop (h : Handler) (log : List Event)
    (ch : List ObjectFieldDefinition) : List Event × Option GoErr :=
  match ch with
  | [] => (log, none)
  | f :: rest =>
    match visitObjectFieldDefinition h log f with
    | (log, some e) => (log, some (.wrap "failed to visit object field definition" e))
    | (log, none) => visitObjectFieldDefinitionListLoop h log rest

/-- visitor.visitObjectFieldDefinitionList (lines 556-579). -/
def visitObjectFieldDefinitionList (h : Handler) (log : List Event)
    (ch : List ObjectFieldDefinition) : List Event × Option GoErr :=
  if ch.length = 0 then (log, none)
  else
    match invokeWrap0 h.EnterObjectFieldDefinitionList Event.enterObjectFieldDefinitionList
        "failed to visit object field definition list (enter)" log with
    | (log, some e) => (log, some e)
    | (log, none) =>
      match visitObjectFieldDefinitionListLoop h log ch with
      | (log, some e) => (log, some e)
      | (log, none) =>
        invokeWrap0 h.LeaveObjectFieldDefinitionList Event.leaveObjectFieldDefinitionList
          "failed to visit object field definition list (leave)" log

/-- visitor.visitObjectDefinition (lines 530-554). -/
def visitObjectDefinition (h : Handler) (log : List Event)
    (v : ObjectDefinition) : List Event × Option GoErr :=
  match enterStep1 h.EnterObjectDefinition Event.enterObjectDefinition
      "failed to visit object definition (enter)" log v with
  | (log, .fatal e) => (log, some e)
  | (log, .go prune) =>
    match (if prune then (log, none)
           else wrapStep "failed to visit object definition list"
             (visitObjectFieldDefinitionList h log v.fields)) with
    | (log, some e) => (log, some e)
    | (log, none) =>
      invokeWrap1 h.LeaveObjectDefinition Event.leaveObjectDefinition
        "failed to visit object definition (leave)" log v

/-- visitor.visitInterfaceFieldDefinition (lines 625-639). -/
def visitInterfaceFieldDefinition (h : Handler) (log : List Event)
    (v : InterfaceFieldDefinition) : List Event × Option GoErr :=
  match invokeWrap1 h.EnterInterfaceFieldDefinition Event.enterInterfaceFieldDefinition
      "failed to visit interface field definition (enter)" log v with
  | (log, some e) => (log, some e)
  | (log, none) =>
    invokeWrap1 h.LeaveInterfaceFieldDefinition Event.leaveInterfaceFieldDefinition
      "failed to visit interface field definition (leave)" log v

/-- The inline `for field := range v.Fields()` loop of
visitor.visitInterfaceDefinition; there are no interface-field list-level
callbacks in the Handler. -/
def visitInterfaceDefinitionLoop (h : Handler) (log : List Event)
    (ch : List InterfaceFieldDefinition) : List Event × Option GoErr :=
  match ch with
  | [] => (log, none)
  | f :: rest =>
    match visitInterfaceFieldDefinition h log f with
    | (log, some e) => (log, some (.wrap "failed to visit interface field definition" e))
    | (log, none) => visitInterfaceDefinitionLoop h log rest

/-- visitor.visitInterfaceDefinition (lines 597-623). -/
def visitInterfaceDefinition (h : Handler) (log : List Event)
    (v : InterfaceDefinition) : List Event × Option GoErr :=
  match enterStep1 h.EnterInterfaceDefinition Event.enterInterfaceDefinition
      "failed to visit interface definition (enter)" log v with
  | (log, .fatal e) => (log, some e)
  | (log, .go prune) =>
    match (if prune then (log, none)
           else visitInterfaceDefinitionLoop h log v.fields) with
    | (log, some e) => (log, some e)
    | (log, none) =>
      invokeWrap1 h.LeaveInterfaceDefinition Event.leaveInterfaceDefinition
        "failed to visit interface definition (leave)" log v

/-- visitor.visitEnumDefinition (lines 641-654): enter and leave only; no
Pruner handling, elements are not visited. -/
def visitEnumDefinition (h : Handler) (log : List Event) (v : EnumDefinition) :
    List Event × Option GoErr :=
  match invokeWrap1 h.EnterEnumDefinition Event.enterEnumDefinition
      "failed to visit enum definition (enter)" log v with
  | (log, some e) => (log, some e)
  | (log, none) =>
    invokeWrap1 h.LeaveEnumDefinition Event.leaveEnumDefinition
      "failed to visit enum definition (leave)" log v

/-- visitor.visitUnionDefinition (lines 656-669). -/
def visitUnionDefinition (h : Handler) (log : List Event) (v : UnionDefinition) :
    List Event × Option GoErr :=
  match invokeWrap1 h.EnterUnionDefinition Event.enterUnionDefinition
      "failed to visit union definition (enter)" log v with
  | (log, some e) => (log, some e)
  | (log, none) =>
    invokeWrap1 h.LeaveUnionDefinition Event.leaveUnionDefinition
      "failed to visit union definition (leave)" log v

/-- visitor.visitInputFieldDefinition (lines 725-739). -/
def visitInputFieldDefinition (h : Handler) (log : List Event)
    (v : InputFieldDefinition) : List Event × Option GoErr :=
  match invokeWrap1 h.EnterInputFieldDefinition Event.enterInputFieldDefinition
      "failed to visit input field definition (enter)" log v with
  | (log, some e) => (log, some e)
  | (log, none) =>
    invokeWrap1 h.LeaveInputFieldDefinition Event.leaveInputFieldDefinition
      "failed to visit input field definition (leave)" log v

/-- The `for e := range ch` loop of visitor.visitInputFieldDefinitionList. -/
def visitInputFieldDefinitionListLoop (h : Handler) (log : List Event)
    (ch : List InputFieldDefinition) : List Event × Option GoErr :=
  match ch with
  | [] => (log, none)
  | f :: rest =>
    match visitInputFieldDefinition h log f with
    | (log, some e) => (log, some (.wrap "failed to visit input field definition" e))
    | (log, none) => visitInputFieldDefinitionListLoop h log rest

/-- visitor.visitInputFieldDefinitionList (lines 697-723), mirrored exactly:
unlike the other list visitors the source has no emptiness guard here, it
consults the Pruner interface on the list-level enter handler, and after the
elements it invokes EnterInputFieldDefinitionList a second time (not
LeaveInputFieldDefinitionList), with the "(enter)" wrap message. -/
def visitInputFieldDefinitionList (h : Handler) (log : List Event)
    (ch : List InputFieldDefinition) : List Event × Option GoErr :=
  match enterStep0 h.EnterInputFieldDefinitionList Event.enterInputFieldDefinitionList
      "failed to visit input field definition list (enter)" log with
  | (log, .fatal e) => (log, some e)
  | (log, .go prune) =>
    match (if prune then (log, none)
           else visitInputFieldDefinitionListLoop h log ch) with
    | (log, some e) => (log, some e)
    | (log, none) =>
      invokeWrap0 h.EnterInputFieldDefinitionList Event.enterInputFieldDefinitionList
        "failed to visit input field definition list (enter)" log

/-- visitor.visitInputDefinition (lines 671-695). -/
def visitInputDefinition (h : Handler) (log : List Event) (v : InputDefinition) :
    List Event × Option GoErr :=
  match enterStep1 h.EnterInputDefinition Event.enterInputDefinition
      "failed to visit input definition (enter)" log v with
  | (log, .fatal e) => (log, some e)
  | (log, .go prune) =>
    match (if prune then (log, none)
           else wrapStep "failed to visit input field definition list"
             (visitInputFieldDefinitionList h log v.fields)) with
    | (log, some e) => (log, some e)
    | (log, none) =>
      invokeWrap1 h.LeaveInputDefinition Event.leaveInputDefinition
        "failed to visit input definition (leave)" log v

/-- visitor.visitSchemaQuery (lines 146-170); no other function of the
package calls it. -/
def visitSchemaQuery (h : Handler) (log : List Event) (v : ObjectDefinition) :
    List Event × Option GoErr :=
  match enterStep1 h.EnterSchemaQuery Event.enterSchemaQuery
      "failed to visit schema query (enter)" log v with
  | (log, .fatal e) => (log, some e)
  | (log, .go prune) =>
    match (if prune then (log, none)
           else wrapStep "failed to visit object definition list"
             (visitObjectFieldDefinitionList h log v.fields)) with
    | (log, some e) => (log, some e)
    | (log, none) =>
      invokeWrap1 h.LeaveSchemaQuery Event.leaveSchemaQuery
        "failed to visit schema query (leave)" log v

mutual

/-- visitor.visitSelection (lines 322-359): pruning enter, dispatch on the
runtime selection variant, leave. -/
def visitSelection (h : Handler) (log : List Event) (v : Selection) :
    List Event × Option GoErr :=
  match enterStep1 h.EnterSelection Event.enterSelection
      "failed to visit selection (enter)" log v with
  | (log, .fatal e) => (log, some e)
  | (log, .go prune) =>
    match (if prune then (log, none)
           else
             match v with
             | .field f =>
               wrapStep "failed to visit selection field" (visitSelectionField h log f)
             | .fragmentSpread f =>
               wrapStep "failed to visit fragment spread" (visitFragmentSpread h log f)
             | .inlineFragment f =>
               wrapStep "failed to visit inline fragment" (visitInlineFragment h log f)) with
    | (log, some e) => (log, some e)
    | (log, none) =>
      invokeWrap1 h.LeaveSelection Event.leaveSelection
        "failed to visit selection (leave)" log v
termination_by structural v

/-- visitor.visitSelectionField (lines 361-389): pruning enter, directives,
nested selections, leave. -/
def visitSelectionField (h : Handler) (log : List Event) (v : SelectionField) :
    List Event × Option GoErr :=
  match enterStep1 h.EnterSelectionField Event.enterSelectionField
      "failed to visit selection field (enter)" log v with
  | (log, .fatal e) => (log, some e)
  | (log, .go prune) =>
    match (if prune then (log, none)
           else
             match v with
             | .mk _ _ _ dirs sels =>
               match visitDirectiveList h log dirs with
               | (log, some e) => (log, some (.wrap "failed to visit directive list" e))
               | (log, none) =>
                 wrapStep "failed to visit selection list" (visitSelectionList h log sels)) with
    | (log, some e) => (log, some e)
    | (log, none) =>
      invokeWrap1 h.LeaveSelectionField Event.leaveSelectionField
        "failed to visit selection field (leave)" log v
termination_by structural v

/-- visitor.visitInlineFragment (lines 445-473). -/
def visitInlineFragment (h : Handler) (log : List Event) (v : InlineFragment) :
    List Event × Option GoErr :=
  match enterStep1 h.EnterInlineFragment Event.enterInlineFragment
      "failed to visit inline fragment (enter)" log v with
  | (log, .fatal e) => (log, some e)
  | (log, .go prune) =>
    match (if prune then (log, none)
           else
             match v with
             | .mk _ dirs sels =>
               match visitDirectiveList h log dirs with
               | (log, some e) => (log, some (.wrap "failed to visit directive list" e))
               | (log, none) =>
                 wrapStep "failed to visit selection list" (visitSelectionList h log sels)) with
    | (log, some e) => (log, some e)
    | (log, none) =>
      invokeWrap1 h.LeaveInlineFragment Event.leaveInlineFragment
        "failed to visit inline fragment (leave)" log v
termination_by structural v

/-- visitor.visitSelectionList (lines 300-320): `len(ch) == 0` guard, list
enter, the `for sel := range ch` loop, list leave.  The loop's first
iteration is unrolled here so that the mutual recursion stays structural;
`visitSelectionList_eq` below recovers the source's guard-plus-loop shape. -/
def visitSelectionList (h : Handler) (log : List Event) (ch : SelectionList) :
    List Event × Option GoErr :=
  match ch with
  | .nil => (log, none)
  | .cons s rest =>
    match invokeWrap0 h.EnterSelectionList Event.enterSelectionList
        "failed to handle selection list (enter)" log with
    | (log, some e) => (log, some e)
    | (log, none) =>
      match (match visitSelection h log s with
             | (log, some e) => (log, some (.wrap "failed to visit selection" e))
             | (log, none) => visitSelectionListLoop h log rest) with
      | (log, some e) => (log, some e)
      | (log, none) =>
        invokeWrap0 h.LeaveSelectionList Event.leaveSelectionList
          "failed to handle selection list (leave)" log
termination_by structural ch

/-- The `for sel := range ch` loop of visitor.visitSelectionList. -/
def visitSelectionListLoop (h : Handler) (log : List Event) (ch : SelectionList) :
    List Event × Option GoErr :=
  match ch with
  | .nil => (log, none)
  | .cons s rest =>
    match visitSelection h log s with
    | (log, some e) => (log, some (.wrap "failed to visit selection" e))
    | (log, none) => visitSelectionListLoop h log rest
termination_by structural ch

end

/-- visitor.visitOperationDefinition (lines 274-298): pruning enter, then
only the selections are descended into (neither the variable definitions
nor the directives), then leave. -/
def visitOperationDefinition (h : Handler) (log : List Event)
    (v : OperationDefinition) : List Event × Option GoErr :=
  match enterStep1 h.EnterOperationDefinition Event.enterOperationDefinition
      "failed to visit operation definition (enter)" log v with
  | (log, .fatal e) => (log, some e)
  | (log, .go prune) =>
    match (if prune then (log, none)
           else wrapStep "failed to visit selection list"
             (visitSelectionList h log v.selections)) with
    | (log, some e) => (log, some e)
    | (log, none) =>
      invokeWrap1 h.LeaveOperationDefinition Event.leaveOperationDefinition
        "failed to visit operation definition (leave)" log v

/-- visitor.visitFragmentDefinition (lines 475-503). -/
def visitFragmentDefinition (h : Handler) (log : List Event)
    (v : FragmentDefinition) : List Event × Option GoErr :=
  match enterStep1 h.EnterFragmentDefinition Event.enterFragmentDefinition
      "failed to visit fragment definition (enter)" log v with
  | (log, .fatal e) => (log, some e)
  | (log, .go prune) =>
    match (if prune then (log, none)
           else
             match visitDirectiveList h log v.directives with
             | (log, some e) => (log, some (.wrap "failed to visit directive list" e))
             | (log, none) =>
               wrapStep "failed to visit selection list"
                 (visitSelectionList h log v.selections)) with
    | (log, some e) => (log, some e)
    | (log, none) =>
      invokeWrap1 h.LeaveFragmentDefinition Event.leaveFragmentDefinition
        "failed to visit fragment definition (leave)" log v

/-- visitor.visitDefinition (lines 220-272): pruning enter, dispatch on the
runtime definition variant (note the source wraps both the object and the
interface case with the same "failed to visit object type definition"
message), leave. -/
def visitDefinition (h : Handler) (log : List Event) (v : Definition) :
    List Event × Option GoErr :=
  match enterStep1 h.EnterDefinition Event.enterDefinition
      "failed to visit definition (enter)" log v with
  | (log, .fatal e) => (log, some e)
  | (log, .go prune) =>
    match (if prune then (log, none)
           else
             match v with
             | .operation o =>
               wrapStep "failed to visit operation definition" (visitOperationDefinition h log o)
             | .fragment f =>
               wrapStep "failed to visit fragment definition" (visitFragmentDefinition h log f)
             | .object o =>
               wrapStep "failed to visit object type definition" (visitObjectDefinition h log o)
             | .iface i =>
               wrapStep "failed to visit object type definition" (visitInterfaceDefinition h log i)
             | .enum e =>
               wrapStep "failed to visit enum definition" (visitEnumDefinition h log e)
             | .union u =>
               wrapStep "failed to visit union definition" (visitUnionDefinition h log u)
             | .input i =>
               wrapStep "failed to visit input definition" (visitInputDefinition h log i)) with
    | (log, some e) => (log, some e)
    | (log, none) =>
      invokeWrap1 h.LeaveDefinition Event.leaveDefinition
        "failed to visit definition (leave)" log v

/-- The `for def := range ch` loop of visitor.visitDefinitionList. -/
def visitDefinitionListLoop (h : Handler) (log : List Event)
    (ch : List Definition) : List Event × Option GoErr :=
  match ch with
  | [] => (log, none)
  | d :: rest =>
    match visitDefinition h log d with
    | (log, some e) => (log, some (.wrap "failed to visit document definition" e))
    | (log, none) => visitDefinitionListLoop h log rest

/-- visitor.visitDefinitionList (lines 198-218). -/
def visitDefinitionList (h : Handler) (log : List Event)
    (ch : List Definition) : List Event × Option GoErr :=
  if ch.length = 0 then (log, none)
  else
    match invokeWrap0 h.EnterDefinitionList Event.enterDefinitionList
        "failed to handle definition list (enter)" log with
    | (log, some e) => (log, some e)
    | (log, none) =>
      match visitDefinitionListLoop h log ch with
      | (log, some e) => (log, some e)
      | (log, none) =>
        invokeWrap0 h.LeaveDefinitionList Event.leaveDefinitionList
          "failed to handle definition list (leave)" log

/-- visitor.visitDocument (lines 172-196). -/
def visitDocument (h : Handler) (log : List Event) (v : Document) :
    List Event × Option GoErr :=
  match enterStep1 h.EnterDocument Event.enterDocument
      "failed to visit document (enter)" log v with
  | (log, .fatal e) => (log, some e)
  | (log, .go prune) =>
    match (if prune then (log, none)
           else wrapStep "failed to visit definition list"
             (visitDefinitionList h log v.definitions)) with
    | (log, some e) => (log, some e)
    | (log, none) =>
      invokeWrap1 h.LeaveDocument Event.leaveDocument
        "failed to visit document (leave)" log v

/-- visitor.visitSchema (lines 109-144): pruning enter (the source wraps its
errors with the "document" messages), then the "other types" and the query
root are combined into one Definition sequence and walked as a definition
list, then leave. -/
def visitSchema (h : Handler) (log : List Event) (v : Schema) :
    List Event × Option GoErr :=
  match enterStep1 h.EnterSchema Event.enterSchema
      "failed to visit document (enter)" log v with
  | (log, .fatal e) => (log, some e)
  | (log, .go prune) =>
    match (if prune then (log, none)
           else wrapStep "failed to visit schema component list"
             (visitDefinitionList h log
               (v.types.map Definition.object ++ [Definition.object v.query]))) with
    | (log, some e) => (log, some e)
    | (log, none) =>
      invokeWrap1 h.LeaveSchema Event.leaveSchema
        "failed to visit document (leave)" log v

/-- visitor.Visit (lines 99-107): dispatch on the runtime type of the root;
anything other than a Document or a Schema yields the invalid-input error
without invoking any callback. -/
def Visit (h : Handler) (log : List Event) (v : VisitInput) :
    List Event × Option GoErr :=
  match v with
  | .document d => visitDocument h log d
  | .schema s => visitSchema h log s
  | .other desc => (log, some (.simple ("invalid input type for visit: " ++ desc)))

/-! ### Observation helpers (not part of the source): a fully-registered
benign handler and the pure traces it produces. -/

/-- The fully-registered benign handler: every callback of the Handler is
registered and always returns nil, so a walk with it records every callback
invocation the engine performs and never errors. -/
@[reducible] def loggerH : Handler where
  EnterSchema := some fun _ _ => none
  LeaveSchema := some fun _ _ => none
  EnterDocument := some fun _ _ => none
  EnterDefinitionList := some fun _ => none
  LeaveDefinitionList := some fun _ => none
  EnterDefinition := some fun _ _ => none
  EnterDirectiveList := some fun _ => none
  EnterDirective := some fun _ _ => none
  EnterOperationDefinition := some fun _ _ => none
  EnterFragmentDefinition := some fun _ _ => none
  EnterObjectDefinition := some fun _ _ => none
  EnterObjectFieldDefinitionList := some fun _ => none
  LeaveObjectFieldDefinitionList := some fun _ => none
  EnterObjectFieldDefinition := some fun _ _ => none
  EnterInterfaceDefinition := some fun _ _ => none
  EnterInterfaceFieldDefinition := some fun _ _ => none
  EnterEnumDefinition := some fun _ _ => none
  EnterUnionDefinition := some fun _ _ => none
  EnterInputDefinition := some fun _ _ => none
  EnterInputFieldDefinitionList := some fun _ => none
  EnterInputFieldDefinition := some fun _ _ => none
  EnterSelectionList := some fun _ => none
  EnterSelection := some fun _ _ => none
  EnterSelectionField := some fun _ _ => none
  EnterFragmentSpread := some fun _ _ => none
  EnterInlineFragment := some fun _ _ => none
  EnterSchemaQuery := some fun _ _ => none
  LeaveSchemaQuery := some fun _ _ => none
  LeaveDocument := some fun _ _ => none
  LeaveDefinition := some fun _ _ => none
  LeaveDirectiveList := some fun _ => none
  LeaveDirective := some fun _ _ => none
  LeaveOperationDefinition := some fun _ _ => none
  LeaveFragmentDefinition := some fun _ _ => none
  LeaveObjectDefinition := some fun _ _ => none
  LeaveObjectFieldDefinition := some fun _ _ => none
  LeaveInterfaceDefinition := some fun _ _ => none
  LeaveInterfaceFieldDefinition := some fun _ _ => none
  LeaveEnumDefinition := some fun _ _ => none
  LeaveUnionDefinition := some fun _ _ => none
  LeaveInputDefinition := some fun _ _ => none
  LeaveInputFieldDefinitionList := some fun _ => none
  LeaveInputFieldDefinition := some fun _ _ => none
  LeaveSelectionList := some fun _ => none
  LeaveSelection := some fun _ _ => none
  LeaveSelectionField := some fun _ _ => none
  LeaveFragmentSpread := some fun _ _ => none
  LeaveInlineFragment := some fun _ _ => none

/-- The trace visitDirective produces under `loggerH`. -/
def traceDirective (v : Directive) : List Event :=
  [.enterDirective v, .leaveDirective v]

/-- The trace visitDirectiveList produces under `loggerH`. -/
def traceDirectiveList (ch : List Directive) : List Event :=
  if ch.length = 0 then []
  else .enterDirectiveList :: (ch.flatMap traceDirective ++ [.leaveDirectiveList])

/-- The trace visitFragmentSpread produces under `loggerH`. -/
def traceFragmentSpread (v : FragmentSpread) : List Event :=
  [.enterFragmentSpread v, .leaveFragmentSpread v]

/-- The trace visitObjectFieldDefinition produces under `loggerH`. -/
def traceObjectFieldDefinition (v : ObjectFieldDefinition) : List Event :=
  [.enterObjectFieldDefinition v, .leaveObjectFieldDefinition v]

/-- The trace visitObjectFieldDefinitionList produces under `loggerH`. -/
def traceObjectFieldDefinitionList (ch : List ObjectFieldDefinition) : List Event :=
  if ch.length = 0 then []
  else .enterObjectFieldDefinitionList ::
    (ch.flatMap traceObjectFieldDefinition ++ [.leaveObjectFieldDefinitionList])

/-- The trace visitInterfaceFieldDefinition produces under `loggerH`. -/
def traceInterfaceFieldDefinition (v : InterfaceFieldDefinition) : List Event :=
  [.enterInterfaceFieldDefinition v, .leaveInterfaceFieldDefinition v]

/-- The trace visitEnumDefinition produces under `loggerH`. -/
def traceEnumDefinition (v : EnumDefinition) : List Event :=
  [.enterEnumDefinition v, .leaveEnumDefinition v]

/-- The trace visitUnionDefinition produces under `loggerH`. -/
def traceUnionDefinition (v : UnionDefinition) : List Event :=
  [.enterUnionDefinition v, .leaveUnionDefinition v]

/-- The trace visitInputFieldDefinition produces under `loggerH`. -/
def traceInputFieldDefinition (v : InputFieldDefinition) : List Event :=
  [.enterInputFieldDefinition v, .leaveInputFieldDefinition v]

/-- The trace visitInputFieldDefinitionList produces under `loggerH`: note
that it records the list-level ENTER event twice (once at either end) and
never a leave event, and has no emptiness guard, mirroring the source. -/
def traceInputFieldDefinitionList (ch : List InputFieldDefinition) : List Event :=
  .enterInputFieldDefinitionList ::
    (ch.flatMap traceInputFieldDefinition ++ [.enterInputFieldDefinitionList])

/-- The trace visitObjectDefinition produces under `loggerH`. -/
def traceObjectDefinition (v : ObjectDefinition) : List Event :=
  .enterObjectDefinition v ::
    (traceObjectFieldDefinitionList v.fields ++ [.leaveObjectDefinition v])

/-- The trace visitInterfaceDefinition produces under `loggerH` (the fields
loop has no list-level callbacks). -/
def traceInterfaceDefinition (v : InterfaceDefinition) : List Event :=
  .enterInterfaceDefinition v ::
    (v.fields.flatMap traceInterfaceFieldDefinition ++ [.leaveInterfaceDefinition v])

/-- The trace visitInputDefinition produces under `loggerH`. -/
def traceInputDefinition (v : InputDefinition) : List Event :=
  .enterInputDefinition v ::
    (traceInputFieldDefinitionList v.fields ++ [.leaveInputDefinition v])

mutual

/-- The trace visitSelection produces under `loggerH`. -/
def traceSelection (v : Selection) : List Event :=
  match v with
  | .field f =>
    .enterSelection (.field f) ::
      (traceSelectionField f ++ [.leaveSelection (.field f)])
  | .fragmentSpread f =>
    .enterSelection (.fragmentSpread f) ::
      (traceFragmentSpread f ++ [.leaveSelection (.fragmentSpread f)])
  | .inlineFragment f =>
    .enterSelection (.inlineFragment f) ::
      (traceInlineFragment f ++ [.leaveSelection (.inlineFragment f)])
termination_by structural v

/-- The trace visitSelectionField produces under `loggerH`. -/
def traceSelectionField (v : SelectionField) : List Event :=
  match v with
  | .mk n a args dirs sels =>
    .enterSelectionField (.mk n a args dirs sels) ::
      (traceDirectiveList dirs ++ traceSelectionList sels ++
        [.leaveSelectionField (.mk n a args dirs sels)])
termination_by structural v

/-- The trace visitInlineFragment produces under `loggerH`. -/
def traceInlineFragment (v : InlineFragment) : List Event :=
  match v with
  | .mk t dirs sels =>
    .enterInlineFragment (.mk t dirs sels) ::
      (traceDirectiveList dirs ++ traceSelectionList sels ++
        [.leaveInlineFragment (.mk t dirs sels)])
termination_by structural v

/-- The trace visitSelectionList produces under `loggerH`. -/
def traceSelectionList (ch : SelectionList) : List Event :=
  match ch with
  | .nil => []
  | .cons s rest =>
    .enterSelectionList ::
      ((traceSelection s ++ traceSelectionLoop rest) ++ [.leaveSelectionList])
termination_by structural ch

/-- The trace the `for sel := range ch` loop produces under `loggerH`. -/
def traceSelectionLoop (ch : SelectionList) : List Event :=
  match ch with
  | .nil => []
  | .cons s rest => traceSelection s ++ traceSelectionLoop rest
termination_by structural ch

end

/-- The trace visitOperationDefinition produces under `loggerH`. -/
def traceOperationDefinition (v : OperationDefinition) : List Event :=
  .enterOperationDefinition v ::
    (traceSelectionList v.selections ++ [.leaveOperationDefinition v])

/-- The trace visitFragmentDefinition produces under `loggerH`. -/
def traceFragmentDefinition (v : FragmentDefinition) : List Event :=
  .enterFragmentDefinition v ::
    (traceDirectiveList v.directives ++ traceSelectionList v.selections ++
      [.leaveFragmentDefinition v])

/-- The trace visitDefinition produces under `loggerH`. -/
def traceDefinition (v : Definition) : List Event :=
  .enterDefinition v ::
    ((match v with
      | .operation o => traceOperationDefinition o
      | .fragment f => traceFragmentDefinition f
      | .object o => traceObjectDefinition o
      | .iface i => traceInterfaceDefinition i
      | .enum e => traceEnumDefinition e
      | .union u => traceUnionDefinition u
      | .input i => traceInputDefinition i) ++ [.leaveDefinition v])

/-- The trace visitDefinitionList produces under `loggerH`. -/
def traceDefinitionList (ch : List Definition) : List Event :=
  if ch.length = 0 then []
  else .enterDefinitionList :: (ch.flatMap traceDefinition ++ [.leaveDefinitionList])

/-- The trace visitDocument produces under `loggerH`. -/
def traceDocument (v : Document) : List Event :=
  .enterDocument v ::
    (traceDefinitionList v.definitions ++ [.leaveDocument v])

/-- The trace visitSchema produces under `loggerH`. -/
def traceSchema (v : Schema) : List Event :=
  .enterSchema v ::
    (traceDefinitionList (v.types.map Definition.object ++ [Definition.object v.query]) ++
      [.leaveSchema v])

/-! ### Observation and test fixtures for the individual claims -/

/-- Extracts the Definition payload of an EnterDefinition invocation. -/
def defEnterPayload : Event → Option Definition
  | .enterDefinition d => some d
  | _ => none

/-- Extracts the Directive payload of an EnterDirective invocation. -/
def dirEnterPayload : Event → Option Directive
  | .enterDirective d => some d
  | _ => none

/-- Extracts the payload of an EnterObjectFieldDefinition invocation. -/
def ofdEnterPayload : Event → Option ObjectFieldDefinition
  | .enterObjectFieldDefinition d => some d
  | _ => none

/-- Extracts the payload of an EnterSelection invocation. -/
def selEnterPayload : Event → Option Selection
  | .enterSelection s => some s
  | _ => none

/-- Clears the two child sequences of an OperationDefinition that the engine
never descends into (variable definitions and directives). -/
def scrubOp (o : OperationDefinition) : OperationDefinition :=
  { o with variableDefinitions := [], directives := [] }

/-- Applies `scrubOp` to every OperationDefinition payload an event can
carry, leaving every other event untouched. -/
def scrubEvent : Event → Event
  | .enterOperationDefinition o => .enterOperationDefinition (scrubOp o)
  | .leaveOperationDefinition o => .leaveOperationDefinition (scrubOp o)
  | .enterDefinition (.operation o) => .enterDefinition (.operation (scrubOp o))
  | .leaveDefinition (.operation o) => .leaveDefinition (.operation (scrubOp o))
  | ev => ev

/-- True exactly on invocations of the EnterSchemaQuery or LeaveSchemaQuery
callbacks. -/
def isSchemaQueryEv : Event → Bool
  | .enterSchemaQuery _ => true
  | .leaveSchemaQuery _ => true
  | _ => false

/-- C1 fixture: the directive the prune-signalling enter-callback fires on. -/
def c1Dir : Directive := { name := "skip", arguments := [] }

/-- C1 fixture: one fragment definition carrying one directive. -/
def c1Doc : Document :=
  { definitions := [ .fragment
      { name := "F", typ := .named "T" true,
        directives := [c1Dir], selections := .nil } ] }

/-- C1 fixture: EnterDirective returns an error implementing Pruner with
Prune() == true; LeaveDirective is registered. -/
def c1Handler : Handler :=
  { EnterDirective := some fun _ _ => some (.pruner "prune me" true),
    LeaveDirective := some fun _ _ => none }

/-- C2 witness fixture: an empty document. -/
def c2Doc : Document := { definitions := [] }

/-- C2 witness fixture: EnterDocument fails with a plain (non-Pruner)
error. -/
def c2Handler : Handler :=
  { EnterDocument := some fun _ _ => some (.simple "boom") }

/-- C3 fixture: one input definition with zero fields. -/
def c3Doc : Document :=
  { definitions := [ .input { name := "I", fields := [] } ] }

/-- C3 fixture: only the two input-field-definition list-level callbacks are
registered. -/
def c3Handler : Handler :=
  { EnterInputFieldDefinitionList := some fun _ => none,
    LeaveInputFieldDefinitionList := some fun _ => none }

/-- C4 fixture: the single input field definition. -/
def c4Fld : InputFieldDefinition := { name := "f", typ := none }

/-- C4 fixture: one input definition with one field. -/
def c4Doc : Document :=
  { definitions := [ .input { name := "I", fields := [c4Fld] } ] }

/-- C4 fixture: both input-field list-level callbacks plus the per-field
callbacks are registered. -/
def c4Handler : Handler :=
  { EnterInputFieldDefinitionList := some fun _ => none,
    LeaveInputFieldDefinitionList := some fun _ => none,
    EnterInputFieldDefinition := some fun _ _ => none,
    LeaveInputFieldDefinition := some fun _ _ => none }

/-- C5 fixture: the inner SelectionField named "id". -/
def c5FieldId : SelectionField := .mk "id" none [] [] .nil

/-- C5 fixture: the outer SelectionField named "user" containing "id". -/
def c5FieldUser : SelectionField :=
  .mk "user" none [] [] (.cons (.field c5FieldId) .nil)

/-- C5 fixture: the query OperationDefinition containing "user". -/
def c5Op : OperationDefinition :=
  { typ := .query, name := none, variableDefinitions := [], directives := [],
    selections := .cons (.field c5FieldUser) .nil }

/-- C5 fixture: the document of the round-trip scenario. -/
def c5Doc : Document := { definitions := [ .operation c5Op ] }

/-- C5 fixture: exactly the eight callbacks named by the scenario's log are
registered (as loggers, i.e. they always return nil). -/
def c5Handler : Handler :=
  { EnterOperationDefinition := some fun _ _ => none,
    LeaveOperationDefinition := some fun _ _ => none,
    EnterSelectionList := some fun _ => none,
    LeaveSelectionList := some fun _ => none,
    EnterSelection := some fun _ _ => none,
    LeaveSelection := some fun _ _ => none,
    EnterSelectionField := some fun _ _ => none,
    LeaveSelectionField := some fun _ _ => none }

/-! ### The source shape of visitSelectionList -/

/-- visitSelectionList equals the source's literal shape: the `len(ch) == 0`
guard, then list enter, the element loop, and list leave. -/
theorem visitSelectionList_eq (h : Handler) (log : List Event) (ch : SelectionList) :
    visitSelectionList h log ch =
      if ch.length = 0 then (log, none)
      else
        match invokeWrap0 h.EnterSelectionList Event.enterSelectionList
            "failed to handle selection list (enter)" log with
        | (log, some e) => (log, some e)
        | (log, none) =>
          match visitSelectionListLoop h log ch with
          | (log, some e) => (log, some e)
          | (log, none) =>
            invokeWrap0 h.LeaveSelectionList Event.leaveSelectionList
              "failed to handle selection list (leave)" log := by
  cases ch with
  | nil => rfl
  | cons s rest =>
    rw [show (SelectionList.cons s rest).length = 1 + rest.length from rfl,
      if_neg (by omega)]
    rfl

/-! ### Bridge lemmas: a walk under `loggerH` produces the pure traces and
no error. -/

theorem invokeWrap1_benign {α : Type} (ev : α → Event) (msg : String)
    (log : List Event) (v : α) :
    invokeWrap1 (some fun _ _ => none) ev msg log v = (log ++ [ev v], none) := rfl

theorem invokeWrap0_benign (ev : Event) (msg : String) (log : List Event) :
    invokeWrap0 (some fun _ => none) ev msg log = (log ++ [ev], none) := rfl

theorem enterStep1_benign {α : Type} (ev : α → Event) (msg : String)
    (log : List Event) (v : α) :
    enterStep1 (some fun _ _ => none) ev msg log v =
      (log ++ [ev v], .go false) := rfl

theorem enterStep0_benign (ev : Event) (msg : String) (log : List Event) :
    enterStep0 (some fun _ => none) ev msg log = (log ++ [ev], .go false) := rfl

theorem logger_visitDirective (log : List Event) (v : Directive) :
    visitDirective loggerH log v = (log ++ traceDirective v, none) := by
  simp [visitDirective, traceDirective, invokeWrap1_benign]

theorem logger_visitDirectiveListLoop (ch : List Directive) :
    ∀ log, visitDirectiveListLoop loggerH log ch =
      (log ++ ch.flatMap traceDirective, none) := by
  induction ch with
  | nil => intro log; simp [visitDirectiveListLoop]
  | cons d rest ih =>
    intro log
    simp [visitDirectiveListLoop, logger_visitDirective, ih]

theorem logger_visitDirectiveList (log : List Event) (ch : List Directive) :
    visitDirectiveList loggerH log ch = (log ++ traceDirectiveList ch, none) := by
  cases ch with
  | nil => simp [visitDirectiveList, traceDirectiveList]
  | cons d rest =>
    simp [visitDirectiveList, traceDirectiveList, invokeWrap0_benign,
      logger_visitDirectiveListLoop]

theorem logger_visitFragmentSpread (log : List Event) (v : FragmentSpread) :
    visitFragmentSpread loggerH log v = (log ++ traceFragmentSpread v, none) := by
  simp [visitFragmentSpread, traceFragmentSpread, invokeWrap1_benign]

theorem logger_visitObjectFieldDefinition (log : List Event) (v : ObjectFieldDefinition) :
    visitObjectFieldDefinition loggerH log v =
      (log ++ traceObjectFieldDefinition v, none) := by
  simp [visitObjectFieldDefinition, traceObjectFieldDefinition, invokeWrap1_benign]

theorem logger_visitObjectFieldDefinitionListLoop (ch : List ObjectFieldDefinition) :
    ∀ log, visitObjectFieldDefinitionListLoop loggerH log ch =
      (log ++ ch.flatMap traceObjectFieldDefinition, none) := by
  induction ch with
  | nil => intro log; simp [visitObjectFieldDefinitionListLoop]
  | cons d rest ih =>
    intro log
    simp [visitObjectFieldDefinitionListLoop, logger_visitObjectFieldDefinition, ih]

theorem logger_visitObjectFieldDefinitionList (log : List Event)
    (ch : List ObjectFieldDefinition) :
    visitObjectFieldDefinitionList loggerH log ch =
      (log ++ traceObjectFieldDefinitionList ch, none) := by
  cases ch with
  | nil => simp [visitObjectFieldDefinitionList, traceObjectFieldDefinitionList]
  | cons d rest =>
    simp [visitObjectFieldDefinitionList, traceObjectFieldDefinitionList,
      invokeWrap0_benign, logger_visitObjectFieldDefinitionListLoop]

theorem logger_visitObjectDefinition (log : List Event) (v : ObjectDefinition) :
    visitObjectDefinition loggerH log v = (log ++ traceObjectDefinition v, none) := by
  simp [visitObjectDefinition, traceObjectDefinition, enterStep1_benign,
    invokeWrap1_benign, wrapStep, logger_visitObjectFieldDefinitionList]

theorem logger_visitInterfaceFieldDefinition (log : List Event)
    (v : InterfaceFieldDefinition) :
    visitInterfaceFieldDefinition loggerH log v =
      (log ++ traceInterfaceFieldDefinition v, none) := by
  simp [visitInterfaceFieldDefinition, traceInterfaceFieldDefinition, invokeWrap1_benign]

theorem logger_visitInterfaceDefinitionLoop (ch : List InterfaceFieldDefinition) :
    ∀ log, visitInterfaceDefinitionLoop loggerH log ch =
      (log ++ ch.flatMap traceInterfaceFieldDefinition, none) := by
  induction ch with
  | nil => intro log; simp [visitInterfaceDefinitionLoop]
  | cons d rest ih =>
    intro log
    simp [visitInterfaceDefinitionLoop, logger_visitInterfaceFieldDefinition, ih]

theorem logger_visitInterfaceDefinition (log : List Event) (v : InterfaceDefinition) :
    visitInterfaceDefinition loggerH log v =
      (log ++ traceInterfaceDefinition v, none) := by
  simp [visitInterfaceDefinition, traceInterfaceDefinition, enterStep1_benign,
    invokeWrap1_benign, logger_visitInterfaceDefinitionLoop]

theorem logger_visitEnumDefinition (log : List Event) (v : EnumDefinition) :
    visitEnumDefinition loggerH log v = (log ++ traceEnumDefinition v, none) := by
  simp [visitEnumDefinition, traceEnumDefinition, invokeWrap1_benign]

theorem logger_visitUnionDefinition (log : List Event) (v : UnionDefinition) :
    visitUnionDefinition loggerH log v = (log ++ traceUnionDefinition v, none) := by
  simp [visitUnionDefinition, traceUnionDefinition, invokeWrap1_benign]

theorem logger_visitInputFieldDefinition (log : List Event) (v : InputFieldDefinition) :
    visitInputFieldDefinition loggerH log v =
      (log ++ traceInputFieldDefinition v, none) := by
  simp [visitInputFieldDefinition, traceInputFieldDefinition, invokeWrap1_benign]

theorem logger_visitInputFieldDefinitionListLoop (ch : List InputFieldDefinition) :
    ∀ log, visitInputFieldDefinitionListLoop loggerH log ch =
      (log ++ ch.flatMap traceInputFieldDefinition, none) := by
  induction ch with
  | nil => intro log; simp [visitInputFieldDefinitionListLoop]
  | cons d rest ih =>
    intro log
    simp [visitInputFieldDefinitionListLoop, logger_visitInputFieldDefinition, ih]

theorem logger_visitInputFieldDefinitionList (log : List Event)
    (ch : List InputFieldDefinition) :
    visitInputFieldDefinitionList loggerH log ch =
      (log ++ traceInputFieldDefinitionList ch, none) := by
  simp [visitInputFieldDefinitionList, traceInputFieldDefinitionList,
    enterStep0_benign, invokeWrap0_benign, logger_visitInputFieldDefinitionListLoop]

theorem logger_visitInputDefinition (log : List Event) (v : InputDefinition) :
    visitInputDefinition loggerH log v = (log ++ traceInputDefinition v, none) := by
  simp [visitInputDefinition, traceInputDefinition, enterStep1_benign,
    invokeWrap1_benign, wrapStep, logger_visitInputFieldDefinitionList]

mutual

theorem logger_visitSelection (v : Selection) :
    ∀ log, visitSelection loggerH log v = (log ++ traceSelection v, none) := by
  intro log
  cases v with
  | field f =>
    have ih := logger_visitSelectionField f
    simp [visitSelection, traceSelection, enterStep1_benign, invokeWrap1_benign,
      wrapStep, ih]
  | fragmentSpread f =>
    simp [visitSelection, traceSelection, enterStep1_benign, invokeWrap1_benign,
      wrapStep, logger_visitFragmentSpread]
  | inlineFragment f =>
    have ih := logger_visitInlineFragment f
    simp [visitSelection, traceSelection, enterStep1_benign, invokeWrap1_benign,
      wrapStep, ih]
termination_by sizeOf v

theorem logger_visitSelectionField (v : SelectionField) :
    ∀ log, visitSelectionField loggerH log v = (log ++ traceSelectionField v, none) := by
  intro log
  cases v with
  | mk n a args dirs sels =>
    have ih := logger_visitSelectionList sels
    simp [visitSelectionField, traceSelectionField, enterStep1_benign,
      invokeWrap1_benign, wrapStep, logger_visitDirectiveList, ih]
termination_by sizeOf v

theorem logger_visitInlineFragment (v : InlineFragment) :
    ∀ log, visitInlineFragment loggerH log v = (log ++ traceInlineFragment v, none) := by
  intro log
  cases v with
  | mk t dirs sels =>
    have ih := logger_visitSelectionList sels
    simp [visitInlineFragment, traceInlineFragment, enterStep1_benign,
      invokeWrap1_benign, wrapStep, logger_visitDirectiveList, ih]
termination_by sizeOf v

theorem logger_visitSelectionList (ch : SelectionList) :
    ∀ log, visitSelectionList loggerH log ch = (log ++ traceSelectionList ch, none) := by
  intro log
  cases ch with
  | nil => simp [visitSelectionList, traceSelectionList]
  | cons s rest =>
    have ihs := logger_visitSelection s
    have ihr := logger_visitSelectionLoop rest
    simp [visitSelectionList, traceSelectionList, invokeWrap0_benign, ihs, ihr]
termination_by sizeOf ch

theorem logger_visitSelectionLoop (ch : SelectionList) :
    ∀ log, visitSelectionListLoop loggerH log ch = (log ++ traceSelectionLoop ch, none) := by
  intro log
  cases ch with
  | nil => simp [visitSelectionListLoop, traceSelectionLoop]
  | cons s rest =>
    have ihs := logger_visitSelection s
    have ihr := logger_visitSelectionLoop rest
    simp [visitSelectionListLoop, traceSelectionLoop, ihs, ihr]
termination_by sizeOf ch

end

theorem logger_visitOperationDefinition (log : List Event) (v : OperationDefinition) :
    visitOperationDefinition loggerH log v =
      (log ++ traceOperationDefinition v, none) := by
  simp [visitOperationDefinition, traceOperationDefinition, enterStep1_benign,
    invokeWrap1_benign, wrapStep, logger_visitSelectionList]

theorem logger_visitFragmentDefinition (log : List Event) (v : FragmentDefinition) :
    visitFragmentDefinition loggerH log v =
      (log ++ traceFragmentDefinition v, none) := by
  simp [visitFragmentDefinition, traceFragmentDefinition, enterStep1_benign,
    invokeWrap1_benign, wrapStep, logger_visitDirectiveList,
    logger_visitSelectionList]

theorem logger_visitDefinition (log : List Event) (v : Definition) :
    visitDefinition loggerH log v = (log ++ traceDefinition v, none) := by
  cases v <;>
    simp [visitDefinition, traceDefinition, enterStep1_benign, invokeWrap1_benign,
      wrapStep, logger_visitOperationDefinition, logger_visitFragmentDefinition,
      logger_visitObjectDefinition, logger_visitInterfaceDefinition,
      logger_visitEnumDefinition, logger_visitUnionDefinition,
      logger_visitInputDefinition]

theorem logger_visitDefinitionListLoop (ch : List Definition) :
    ∀ log, visitDefinitionListLoop loggerH log ch =
      (log ++ ch.flatMap traceDefinition, none) := by
  induction ch with
  | nil => intro log; simp [visitDefinitionListLoop]
  | cons d rest ih =>
    intro log
    simp [visitDefinitionListLoop, logger_visitDefinition, ih]

theorem logger_visitDefinitionList (log : List Event) (ch : List Definition) :
    visitDefinitionList loggerH log ch = (log ++ traceDefinitionList ch, none) := by
  cases ch with
  | nil => simp [visitDefinitionList, traceDefinitionList]
  | cons d rest =>
    simp [visitDefinitionList, traceDefinitionList, invokeWrap0_benign,
      logger_visitDefinitionListLoop]

theorem logger_visitDocument (log : List Event) (v : Document) :
    visitDocument loggerH log v = (log ++ traceDocument v, none) := by
  simp [visitDocument, traceDocument, enterStep1_benign, invokeWrap1_benign,
    wrapStep, logger_visitDefinitionList]

theorem logger_visitSchema (log : List Event) (v : Schema) :
    visitSchema loggerH log v = (log ++ traceSchema v, none) := by
  simp [visitSchema, traceSchema, enterStep1_benign, invokeWrap1_benign,
    wrapStep, logger_visitDefinitionList]

/-! ### Claim theorems -/

/-- C7: calling the entry point with a root value that is neither a Document
nor a Schema returns the invalid-input-type error immediately, with the
trace unchanged (no callback of any kind is invoked). -/
theorem c7_invalid_root_input (h : Handler) (log : List Event) (desc : String) :
    Visit h log (.other desc) =
      (log, some (.simple ("invalid input type for visit: " ++ desc))) := rfl

/-- C5: walking the round-trip document (one query operation containing a
SelectionField "user" containing a SelectionField "id") with exactly the
operation-definition, selection-list, selection and selection-field
enter/leave callbacks registered as loggers produces exactly the fourteen
invocations of the scenario, in the stated order, and no error. -/
theorem c5_round_trip_trace :
    Visit c5Handler [] (.document c5Doc) =
      ([.enterOperationDefinition c5Op,
        .enterSelectionList,
        .enterSelection (.field c5FieldUser),
        .enterSelectionField c5FieldUser,
        .enterSelectionList,
        .enterSelection (.field c5FieldId),
        .enterSelectionField c5FieldId,
        .leaveSelectionField c5FieldId,
        .leaveSelection (.field c5FieldId),
        .leaveSelectionList,
        .leaveSelectionField c5FieldUser,
        .leaveSelection (.field c5FieldUser),
        .leaveSelectionList,
        .leaveOperationDefinition c5Op], none) := rfl

/-- C3 (failing input): walking an input definition with ZERO input field
definitions, with only the two input-field list-level callbacks registered,
invokes EnterInputFieldDefinitionList twice and LeaveInputFieldDefinitionList
never — the source's visitInputFieldDefinitionList has no emptiness guard,
so the claim's "an empty sequence produces neither call" fails for this
list kind. -/
theorem c3_empty_input_field_list_still_fires :
    Visit c3Handler [] (.document c3Doc) =
      ([.enterInputFieldDefinitionList, .enterInputFieldDefinitionList], none) := rfl

/-- C4 (failing input): walking an input definition with ONE input field
definition, with both input-field list-level callbacks and both per-field
callbacks registered, invokes EnterInputFieldDefinitionList a second time
after the last element — where the matching leave callback should fire —
and never invokes LeaveInputFieldDefinitionList at all. -/
theorem c4_input_field_list_leave_never_fires :
    Visit c4Handler [] (.document c4Doc) =
      ([.enterInputFieldDefinitionList,
        .enterInputFieldDefinition c4Fld,
        .leaveInputFieldDefinition c4Fld,
        .enterInputFieldDefinitionList], none) := rfl

/-- C1 (counterexample): for a Directive node, an enter-callback error whose
Prune() returns true does NOT merely prune: visitDirective treats every
error as fatal, so the whole walk aborts (the entry point returns an error)
and the registered LeaveDirective callback never runs — the only invocation
in the trace is the EnterDirective call itself. -/
theorem c1_counterexample_directive_prune_aborts :
    (Visit c1Handler [] (.document c1Doc)).2 ≠ none ∧
    (Visit c1Handler [] (.document c1Doc)).1 = [Event.enterDirective c1Dir] := by
  have hres : Visit c1Handler [] (.document c1Doc) =
      ([Event.enterDirective c1Dir],
        some (.wrap "failed to visit definition list"
          (.wrap "failed to visit document definition"
            (.wrap "failed to visit fragment definition"
              (.wrap "failed to visit directive list"
                (.wrap "failed to visit directive"
                  (.wrap "failed to visit directive (enter)"
                    (.pruner "prune me" true)))))))) := rfl
  rw [hres]
  exact ⟨by simp, rfl⟩

/-- C1 (amended): for every node of the kinds whose visit functions consult
the Pruner interface — Schema, Document, Definition, OperationDefinition,
FragmentDefinition, ObjectDefinition, InterfaceDefinition, InputDefinition,
Selection, SelectionField and InlineFragment — an enter-callback error with
Prune() == true makes the walk skip the node's children entirely and step
directly to the node's leave handler: the visit reduces to the enter
invocation followed by the leave step on the enter-extended trace (so a
registered leave callback still executes exactly once, and traversal of
siblings and ancestors continues unless the leave itself errs).  The leaf
kinds (Directive, FragmentSpread, the field-definition kinds, EnumDefinition
and UnionDefinition) instead treat every enter error, prune signals
included, as fatal. -/
theorem c1_amended_prune_respected_kinds :
    (∀ (h : Handler) (log : List Event) (v : Schema) (f : Callback Schema) (e : GoErr),
      h.EnterSchema = some f → f log v = some e → isPruneError e = some true →
      visitSchema h log v =
        invokeWrap1 h.LeaveSchema Event.leaveSchema
          "failed to visit document (leave)" (log ++ [Event.enterSchema v]) v) ∧
    (∀ (h : Handler) (log : List Event) (v : Document) (f : Callback Document) (e : GoErr),
      h.EnterDocument = some f → f log v = some e → isPruneError e = some true →
      visitDocument h log v =
        invokeWrap1 h.LeaveDocument Event.leaveDocument
          "failed to visit document (leave)" (log ++ [Event.enterDocument v]) v) ∧
    (∀ (h : Handler) (log : List Event) (v : Definition) (f : Callback Definition) (e : GoErr),
      h.EnterDefinition = some f → f log v = some e → isPruneError e = some true →
      visitDefinition h log v =
        invokeWrap1 h.LeaveDefinition Event.leaveDefinition
          "failed to visit definition (leave)" (log ++ [Event.enterDefinition v]) v) ∧
    (∀ (h : Handler) (log : List Event) (v : OperationDefinition)
        (f : Callback OperationDefinition) (e : GoErr),
      h.EnterOperationDefinition = some f → f log v = some e → isPruneError e = some true →
      visitOperationDefinition h log v =
        invokeWrap1 h.LeaveOperationDefinition Event.leaveOperationDefinition
          "failed to visit operation definition (leave)"
          (log ++ [Event.enterOperationDefinition v]) v) ∧
    (∀ (h : Handler) (log : List Event) (v : FragmentDefinition)
        (f : Callback FragmentDefinition) (e : GoErr),
      h.EnterFragmentDefinition = some f → f log v = some e → isPruneError e = some true →
      visitFragmentDefinition h log v =
        invokeWrap1 h.LeaveFragmentDefinition Event.leaveFragmentDefinition
          "failed to visit fragment definition (leave)"
          (log ++ [Event.enterFragmentDefinition v]) v) ∧
    (∀ (h : Handler) (log : List Event) (v : ObjectDefinition)
        (f : Callback ObjectDefinition) (e : GoErr),
      h.EnterObjectDefinition = some f → f log v = some e → isPruneError e = some true →
      visitObjectDefinition h log v =
        invokeWrap1 h.LeaveObjectDefinition Event.leaveObjectDefinition
          "failed to visit object definition (leave)"
          (log ++ [Event.enterObjectDefinition v]) v) ∧
    (∀ (h : Handler) (log : List Event) (v : InterfaceDefinition)
        (f : Callback InterfaceDefinition) (e : GoErr),
      h.EnterInterfaceDefinition = some f → f log v = some e → isPruneError e = some true →
      visitInterfaceDefinition h log v =
        invokeWrap1 h.LeaveInterfaceDefinition Event.leaveInterfaceDefinition
          "failed to visit interface definition (leave)"
          (log ++ [Event.enterInterfaceDefinition v]) v) ∧
    (∀ (h : Handler) (log : List Event) (v : InputDefinition)
        (f : Callback InputDefinition) (e : GoErr),
      h.EnterInputDefinition = some f → f log v = some e → isPruneError e = some true →
      visitInputDefinition h log v =
        invokeWrap1 h.LeaveInputDefinition Event.leaveInputDefinition
          "failed to visit input definition (leave)"
          (log ++ [Event.enterInputDefinition v]) v) ∧
    (∀ (h : Handler) (log : List Event) (v : Selection) (f : Callback Selection) (e : GoErr),
      h.EnterSelection = some f → f log v = some e → isPruneError e = some true →
      visitSelection h log v =
        invokeWrap1 h.LeaveSelection Event.leaveSelection
          "failed to visit selection (leave)" (log ++ [Event.enterSelection v]) v) ∧
    (∀ (h : Handler) (log : List Event) (v : SelectionField)
        (f : Callback SelectionField) (e : GoErr),
      h.EnterSelectionField = some f → f log v = some e → isPruneError e = some true →
      visitSelectionField h log v =
        invokeWrap1 h.LeaveSelectionField Event.leaveSelectionField
          "failed to visit selection field (leave)"
          (log ++ [Event.enterSelectionField v]) v) ∧
    (∀ (h : Handler) (log : List Event) (v : InlineFragment)
        (f : Callback InlineFragment) (e : GoErr),
      h.EnterInlineFragment = some f → f log v = some e → isPruneError e = some true →
      visitInlineFragment h log v =
        invokeWrap1 h.LeaveInlineFragment Event.leaveInlineFragment
          "failed to visit inline fragment (leave)"
          (log ++ [Event.enterInlineFragment v]) v) := by
  refine ⟨?_, ?_, ?_, ?_, ?_, ?_, ?_, ?_, ?_, ?_, ?_⟩ <;>
    · intro h log v f e hf hfe hpe
      simp [visitSchema, visitDocument, visitDefinition, visitOperationDefinition,
        visitFragmentDefinition, visitObjectDefinition, visitInterfaceDefinition,
        visitInputDefinition, visitSelection, visitSelectionField,
        visitInlineFragment, enterStep1, invoke1, hf, hfe, hpe]

/-- C1 (witness): the amended theorem applied at a concrete prune-signalling
Selection enter-callback: the children are skipped, the registered leave
callback fires exactly once, and the walk continues with no error. -/
theorem c1_amended_witness :
    visitSelection
      { EnterSelection := some fun _ _ => some (.pruner "p" true),
        LeaveSelection := some fun _ _ => none }
      [] (.field c5FieldUser) =
      ([Event.enterSelection (.field c5FieldUser),
        Event.leaveSelection (.field c5FieldUser)], none) := by
  have h := c1_amended_prune_respected_kinds.2.2.2.2.2.2.2.2.1
    { EnterSelection := some fun _ _ => some (.pruner "p" true),
      LeaveSelection := some fun _ _ => none }
    [] (.field c5FieldUser) (fun _ _ => some (.pruner "p" true))
    (.pruner "p" true) rfl rfl rfl
  rw [h]
  rfl

/-- C2: for every node kind, a fatal (non-Pruner) error from the node's
enter-callback makes the visit return immediately — the trace gains only
that enter invocation (no leave for the node, nothing for its children) and
the error comes back wrapped with the visit stage's message; every element
loop stops at the first failing element without touching the remaining
siblings, wrapping preserves the underlying cause (rootCause), and the entry
point hands the error through unchanged. -/
theorem c2_fatal_abort :
    (∀ (h : Handler) (log : List Event) (v : Document) (f : Callback Document) (e : GoErr),
      h.EnterDocument = some f → f log v = some e → isPruneError e = none →
      visitDocument h log v =
        (log ++ [Event.enterDocument v], some (.wrap "failed to visit document (enter)" e))) ∧
    (∀ (h : Handler) (log : List Event) (v : Schema) (f : Callback Schema) (e : GoErr),
      h.EnterSchema = some f → f log v = some e → isPruneError e = none →
      visitSchema h log v =
        (log ++ [Event.enterSchema v], some (.wrap "failed to visit document (enter)" e))) ∧
    (∀ (h : Handler) (log : List Event) (v : Definition) (f : Callback Definition) (e : GoErr),
      h.EnterDefinition = some f → f log v = some e → isPruneError e = none →
      visitDefinition h log v =
        (log ++ [Event.enterDefinition v], some (.wrap "failed to visit definition (enter)" e))) ∧
    (∀ (h : Handler) (log : List Event) (v : OperationDefinition) (f : Callback OperationDefinition) (e : GoErr),
      h.EnterOperationDefinition = some f → f log v = some e → isPruneError e = none →
      visitOperationDefinition h log v =
        (log ++ [Event.enterOperationDefinition v], some (.wrap "failed to visit operation definition (enter)" e))) ∧
    (∀ (h : Handler) (log : List Event) (v : FragmentDefinition) (f : Callback FragmentDefinition) (e : GoErr),
      h.EnterFragmentDefinition = some f → f log v = some e → isPruneError e = none →
      visitFragmentDefinition h log v =
        (log ++ [Event.enterFragmentDefinition v], some (.wrap "failed to visit fragment definition (enter)" e))) ∧
    (∀ (h : Handler) (log : List Event) (v : ObjectDefinition) (f : Callback ObjectDefinition) (e : GoErr),
      h.EnterObjectDefinition = some f → f log v = some e → isPruneError e = none →
      visitObjectDefinition h log v =
        (log ++ [Event.enterObjectDefinition v], some (.wrap "failed to visit object definition (enter)" e))) ∧
    (∀ (h : Handler) (log : List Event) (v : InterfaceDefinition) (f : Callback InterfaceDefinition) (e : GoErr),
      h.EnterInterfaceDefinition = some f → f log v = some e → isPruneError e = none →
      visitInterfaceDefinition h log v =
        (log ++ [Event.enterInterfaceDefinition v], some (.wrap "failed to visit interface definition (enter)" e))) ∧
    (∀ (h : Handler) (log : List Event) (v : EnumDefinition) (f : Callback EnumDefinition) (e : GoErr),
      h.EnterEnumDefinition = some f → f log v = some e → isPruneError e = none →
      visitEnumDefinition h log v =
        (log ++ [Event.enterEnumDefinition v], some (.wrap "failed to visit enum definition (enter)" e))) ∧
    (∀ (h : Handler) (log : List Event) (v : UnionDefinition) (f : Callback UnionDefinition) (e : GoErr),
      h.EnterUnionDefinition = some f → f log v = some e → isPruneError e = none →
      visitUnionDefinition h log v =
        (log ++ [Event.enterUnionDefinition v], some (.wrap "failed to visit union definition (enter)" e))) ∧
    (∀ (h : Handler) (log : List Event) (v : InputDefinition) (f : Callback InputDefinition) (e : GoErr),
      h.EnterInputDefinition = some f → f log v = some e → isPruneError e = none →
      visitInputDefinition h log v =
        (log ++ [Event.enterInputDefinition v], some (.wrap "failed to visit input definition (enter)" e))) ∧
    (∀ (h : Handler) (log : List Event) (v : Selection) (f : Callback Selection) (e : GoErr),
      h.EnterSelection = some f → f log v = some e → isPruneError e = none →
      visitSelection h log v =
        (log ++ [Event.enterSelection v], some (.wrap "failed to visit selection (enter)" e))) ∧
    (∀ (h : Handler) (log : List Event) (v : SelectionField) (f : Callback SelectionField) (e : GoErr),
      h.EnterSelectionField = some f → f log v = some e → isPruneError e = none →
      visitSelectionField h log v =
        (log ++ [Event.enterSelectionField v], some (.wrap "failed to visit selection field (enter)" e))) ∧
    (∀ (h : Handler) (log : List Event) (v : FragmentSpread) (f : Callback FragmentSpread) (e : GoErr),
      h.EnterFragmentSpread = some f → f log v = some e → isPruneError e = none →
      visitFragmentSpread h log v =
        (log ++ [Event.enterFragmentSpread v], some (.wrap "failed to visit fragment spread (enter)" e))) ∧
    (∀ (h : Handler) (log : List Event) (v : InlineFragment) (f : Callback InlineFragment) (e : GoErr),
      h.EnterInlineFragment = some f → f log v = some e → isPruneError e = none →
      visitInlineFragment h log v =
        (log ++ [Event.enterInlineFragment v], some (.wrap "failed to visit inline fragment (enter)" e))) ∧
    (∀ (h : Handler) (log : List Event) (v : Directive) (f : Callback Directive) (e : GoErr),
      h.EnterDirective = some f → f log v = some e → isPruneError e = none →
      visitDirective h log v =
        (log ++ [Event.enterDirective v], some (.wrap "failed to visit directive (enter)" e))) ∧
    (∀ (h : Handler) (log : List Event) (v : ObjectFieldDefinition) (f : Callback ObjectFieldDefinition) (e : GoErr),
      h.EnterObjectFieldDefinition = some f → f log v = some e → isPruneError e = none →
      visitObjectFieldDefinition h log v =
        (log ++ [Event.enterObjectFieldDefinition v], some (.wrap "failed to visit object field definition (enter)" e))) ∧
    (∀ (h : Handler) (log : List Event) (v : InterfaceFieldDefinition) (f : Callback InterfaceFieldDefinition) (e : GoErr),
      h.EnterInterfaceFieldDefinition = some f → f log v = some e → isPruneError e = none →
      visitInterfaceFieldDefinition h log v =
        (log ++ [Event.enterInterfaceFieldDefinition v], some (.wrap "failed to visit interface field definition (enter)" e))) ∧
    (∀ (h : Handler) (log : List Event) (v : InputFieldDefinition) (f : Callback InputFieldDefinition) (e : GoErr),
      h.EnterInputFieldDefinition = some f → f log v = some e → isPruneError e = none →
      visitInputFieldDefinition h log v =
        (log ++ [Event.enterInputFieldDefinition v], some (.wrap "failed to visit input field definition (enter)" e))) ∧
    (∀ (h : Handler) (log l2 : List Event) (d : Definition) (rest : List Definition) (e : GoErr),
      visitDefinition h log d = (l2, some e) →
      visitDefinitionListLoop h log (d :: rest) = (l2, some (.wrap "failed to visit document definition" e))) ∧
    (∀ (h : Handler) (log l2 : List Event) (d : Selection) (rest : SelectionList) (e : GoErr),
      visitSelection h log d = (l2, some e) →
      visitSelectionListLoop h log (.cons d rest) = (l2, some (.wrap "failed to visit selection" e))) ∧
    (∀ (h : Handler) (log l2 : List Event) (d : Directive) (rest : List Directive) (e : GoErr),
      visitDirective h log d = (l2, some e) →
      visitDirectiveListLoop h log (d :: rest) = (l2, some (.wrap "failed to visit directive" e))) ∧
    (∀ (h : Handler) (log l2 : List Event) (d : ObjectFieldDefinition) (rest : List ObjectFieldDefinition) (e : GoErr),
      visitObjectFieldDefinition h log d = (l2, some e) →
      visitObjectFieldDefinitionListLoop h log (d :: rest) = (l2, some (.wrap "failed to visit object field definition" e))) ∧
    (∀ (h : Handler) (log l2 : List Event) (d : InputFieldDefinition) (rest : List InputFieldDefinition) (e : GoErr),
      visitInputFieldDefinition h log d = (l2, some e) →
      visitInputFieldDefinitionListLoop h log (d :: rest) = (l2, some (.wrap "failed to visit input field definition" e))) ∧
    (∀ (h : Handler) (log l2 : List Event) (d : InterfaceFieldDefinition) (rest : List InterfaceFieldDefinition) (e : GoErr),
      visitInterfaceFieldDefinition h log d = (l2, some e) →
      visitInterfaceDefinitionLoop h log (d :: rest) = (l2, some (.wrap "failed to visit interface field definition" e))) ∧
    (∀ (m : String) (e : GoErr), rootCause (GoErr.wrap m e) = rootCause e) ∧
    (∀ (h : Handler) (log l2 : List Event) (d : Document) (e : GoErr),
      visitDocument h log d = (l2, some e) → Visit h log (.document d) = (l2, some e)) ∧
    (∀ (h : Handler) (log l2 : List Event) (sc : Schema) (e : GoErr),
      visitSchema h log sc = (l2, some e) → Visit h log (.schema sc) = (l2, some e)) := by
  refine ⟨?_, ?_, ?_, ?_, ?_, ?_, ?_, ?_, ?_, ?_, ?_, ?_, ?_, ?_, ?_, ?_, ?_, ?_, ?_, ?_, ?_, ?_, ?_, ?_, ?_, ?_, ?_⟩
  · intro h log v f e hf hfe hpe
    simp [visitDocument, enterStep1, invokeWrap1, invoke1, hf, hfe, hpe]
  · intro h log v f e hf hfe hpe
    simp [visitSchema, enterStep1, invokeWrap1, invoke1, hf, hfe, hpe]
  · intro h log v f e hf hfe hpe
    simp [visitDefinition, enterStep1, invokeWrap1, invoke1, hf, hfe, hpe]
  · intro h log v f e hf hfe hpe
    simp [visitOperationDefinition, enterStep1, invokeWrap1, invoke1, hf, hfe, hpe]
  · intro h log v f e hf hfe hpe
    simp [visitFragmentDefinition, enterStep1, invokeWrap1, invoke1, hf, hfe, hpe]
  · intro h log v f e hf hfe hpe
    simp [visitObjectDefinition, enterStep1, invokeWrap1, invoke1, hf, hfe, hpe]
  · intro h log v f e hf hfe hpe
    simp [visitInterfaceDefinition, enterStep1, invokeWrap1, invoke1, hf, hfe, hpe]
  · intro h log v f e hf hfe hpe
    simp [visitEnumDefinition, enterStep1, invokeWrap1, invoke1, hf, hfe, hpe]
  · intro h log v f e hf hfe hpe
    simp [visitUnionDefinition, enterStep1, invokeWrap1, invoke1, hf, hfe, hpe]
  · intro h log v f e hf hfe hpe
    simp [visitInputDefinition, enterStep1, invokeWrap1, invoke1, hf, hfe, hpe]
  · intro h log v f e hf hfe hpe
    simp [visitSelection, enterStep1, invokeWrap1, invoke1, hf, hfe, hpe]
  · intro h log v f e hf hfe hpe
    simp [visitSelectionField, enterStep1, invokeWrap1, invoke1, hf, hfe, hpe]
  · intro h log v f e hf hfe hpe
    simp [visitFragmentSpread, enterStep1, invokeWrap1, invoke1, hf, hfe, hpe]
  · intro h log v f e hf hfe hpe
    simp [visitInlineFragment, enterStep1, invokeWrap1, invoke1, hf, hfe, hpe]
  · intro h log v f e hf hfe hpe
    simp [visitDirective, enterStep1, invokeWrap1, invoke1, hf, hfe, hpe]
  · intro h log v f e hf hfe hpe
    simp [visitObjectFieldDefinition, enterStep1, invokeWrap1, invoke1, hf, hfe, hpe]
  · intro h log v f e hf hfe hpe
    simp [visitInterfaceFieldDefinition, enterStep1, invokeWrap1, invoke1, hf, hfe, hpe]
  · intro h log v f e hf hfe hpe
    simp [visitInputFieldDefinition, enterStep1, invokeWrap1, invoke1, hf, hfe, hpe]
  · intro h log l2 d rest e h1
    simp [visitDefinitionListLoop, h1]
  · intro h log l2 d rest e h1
    simp [visitSelectionListLoop, h1]
  · intro h log l2 d rest e h1
    simp [visitDirectiveListLoop, h1]
  · intro h log l2 d rest e h1
    simp [visitObjectFieldDefinitionListLoop, h1]
  · intro h log l2 d rest e h1
    simp [visitInputFieldDefinitionListLoop, h1]
  · intro h log l2 d rest e h1
    simp [visitInterfaceDefinitionLoop, h1]
  · intro m e
    rfl
  · intro h log l2 d e h1
    simpa [Visit] using h1
  · intro h log l2 sc e h1
    simpa [Visit] using h1

/-- C2 (witness): the fatal-abort theorem applied to a concrete document
whose EnterDocument callback fails with a plain error: the only recorded
invocation is that enter call and the error comes back wrapped once. -/
theorem c2_fatal_abort_witness :
    visitDocument c2Handler [] c2Doc =
      ([Event.enterDocument c2Doc],
        some (.wrap "failed to visit document (enter)" (.simple "boom"))) :=
  c2_fatal_abort.1 c2Handler [] c2Doc (fun _ _ => some (.simple "boom"))
    (.simple "boom") rfl rfl rfl

/-- C8: the walk of an OperationDefinition descends only into its
selections: with the fully-registered logger handler, the walk of an
operation with arbitrary variable definitions and directives produces the
same invocation trace (up to the operation payload carried inside the two
operation events themselves, which `scrubEvent` normalises) and the same
result as the walk of the operation with those two sequences emptied — so
no callback is ever invoked for a VariableDefinition (the Handler, like the
source's, has no such callback) nor for the operation's directives,
regardless of how many are declared. -/
theorem c8_variable_definitions_never_visited (log : List Event)
    (t : OperationType) (n : Option String) (vars : List VariableDefinition)
    (dirs : List Directive) (sl : SelectionList) :
    (visitOperationDefinition loggerH log
        { typ := t, name := n, variableDefinitions := vars, directives := dirs,
          selections := sl }).1.map scrubEvent =
      (visitOperationDefinition loggerH log
          { typ := t, name := n, variableDefinitions := [], directives := [],
            selections := sl }).1.map scrubEvent ∧
    (visitOperationDefinition loggerH log
        { typ := t, name := n, variableDefinitions := vars, directives := dirs,
          selections := sl }).2 =
      (visitOperationDefinition loggerH log
          { typ := t, name := n, variableDefinitions := [], directives := [],
            selections := sl }).2 := by
  constructor
  · simp only [logger_visitOperationDefinition]
    simp [traceOperationDefinition, scrubEvent, scrubOp]
  · simp only [logger_visitOperationDefinition]

/-! ### Which definitions the EnterDefinition callback sees -/

theorem filterMap_flatMap_eq_nil {α β γ : Type} (p : β → Option γ)
    (f : α → List β) (l : List α) (h : ∀ a ∈ l, (f a).filterMap p = []) :
    (l.flatMap f).filterMap p = [] := by
  induction l with
  | nil => simp
  | cons a rest ih =>
    simp only [List.flatMap_cons, List.filterMap_append]
    rw [h a (by simp), ih (fun b hb => h b (by simp [hb]))]
    rfl

theorem filterMap_flatMap_eq_self {α β : Type} (p : β → Option α)
    (f : α → List β) (l : List α) (h : ∀ a ∈ l, (f a).filterMap p = [a]) :
    (l.flatMap f).filterMap p = l := by
  induction l with
  | nil => simp
  | cons a rest ih =>
    simp only [List.flatMap_cons, List.filterMap_append]
    rw [h a (by simp), ih (fun b hb => h b (by simp [hb]))]
    rfl

theorem dp_traceDirectiveList (ch : List Directive) :
    (traceDirectiveList ch).filterMap defEnterPayload = [] := by
  cases ch with
  | nil => rfl
  | cons d rest =>
    rw [traceDirectiveList, if_neg (by simp)]
    simp only [List.filterMap_cons, List.filterMap_append]
    rw [filterMap_flatMap_eq_nil defEnterPayload traceDirective _ (fun a _ => rfl)]
    rfl

theorem dp_traceObjectFieldDefinitionList (ch : List ObjectFieldDefinition) :
    (traceObjectFieldDefinitionList ch).filterMap defEnterPayload = [] := by
  cases ch with
  | nil => rfl
  | cons d rest =>
    rw [traceObjectFieldDefinitionList, if_neg (by simp)]
    simp only [List.filterMap_cons, List.filterMap_append]
    rw [filterMap_flatMap_eq_nil defEnterPayload traceObjectFieldDefinition _
      (fun a _ => rfl)]
    rfl

theorem dp_traceInputFieldDefinitionList (ch : List InputFieldDefinition) :
    (traceInputFieldDefinitionList ch).filterMap defEnterPayload = [] := by
  simp [traceInputFieldDefinitionList, defEnterPayload,
    filterMap_flatMap_eq_nil defEnterPayload traceInputFieldDefinition _
      (fun a _ => rfl)]

mutual

theorem dp_traceSelection (v : Selection) :
    (traceSelection v).filterMap defEnterPayload = [] := by
  cases v with
  | field f =>
    have ih := dp_traceSelectionField f
    simp [traceSelection, defEnterPayload, ih]
  | fragmentSpread f =>
    simp [traceSelection, traceFragmentSpread, defEnterPayload]
  | inlineFragment f =>
    have ih := dp_traceInlineFragment f
    simp [traceSelection, defEnterPayload, ih]
termination_by sizeOf v

theorem dp_traceSelectionField (v : SelectionField) :
    (traceSelectionField v).filterMap defEnterPayload = [] := by
  cases v with
  | mk n a args dirs sels =>
    have ih := dp_traceSelectionList sels
    simp [traceSelectionField, defEnterPayload, dp_traceDirectiveList, ih]
termination_by sizeOf v

theorem dp_traceInlineFragment (v : InlineFragment) :
    (traceInlineFragment v).filterMap defEnterPayload = [] := by
  cases v with
  | mk t dirs sels =>
    have ih := dp_traceSelectionList sels
    simp [traceInlineFragment, defEnterPayload, dp_traceDirectiveList, ih]
termination_by sizeOf v

theorem dp_traceSelectionList (ch : SelectionList) :
    (traceSelectionList ch).filterMap defEnterPayload = [] := by
  cases ch with
  | nil => rfl
  | cons s rest =>
    have ihs := dp_traceSelection s
    have ihr := dp_traceSelectionLoop rest
    simp [traceSelectionList, defEnterPayload, ihs, ihr]
termination_by sizeOf ch

theorem dp_traceSelectionLoop (ch : SelectionList) :
    (traceSelectionLoop ch).filterMap defEnterPayload = [] := by
  cases ch with
  | nil => rfl
  | cons s rest =>
    have ihs := dp_traceSelection s
    have ihr := dp_traceSelectionLoop rest
    simp [traceSelectionLoop, ihs, ihr]
termination_by sizeOf ch

end

theorem dp_traceDefinition (d : Definition) :
    (traceDefinition d).filterMap defEnterPayload = [d] := by
  cases d with
  | operation o =>
    simp [traceDefinition, traceOperationDefinition, defEnterPayload,
      dp_traceSelectionList]
  | fragment f =>
    simp [traceDefinition, traceFragmentDefinition, defEnterPayload,
      dp_traceDirectiveList, dp_traceSelectionList]
  | object o =>
    simp [traceDefinition, traceObjectDefinition, defEnterPayload,
      dp_traceObjectFieldDefinitionList]
  | iface i =>
    simp [traceDefinition, traceInterfaceDefinition, defEnterPayload,
      filterMap_flatMap_eq_nil defEnterPayload traceInterfaceFieldDefinition _
        (fun a _ => rfl)]
  | enum e => simp [traceDefinition, traceEnumDefinition, defEnterPayload]
  | union u => simp [traceDefinition, traceUnionDefinition, defEnterPayload]
  | input i =>
    simp [traceDefinition, traceInputDefinition, defEnterPayload,
      dp_traceInputFieldDefinitionList]

theorem dp_traceDefinitionList (ch : List Definition) :
    (traceDefinitionList ch).filterMap defEnterPayload = ch := by
  cases ch with
  | nil => rfl
  | cons d rest =>
    rw [traceDefinitionList, if_neg (by simp)]
    simp only [List.filterMap_cons, List.filterMap_append]
    rw [filterMap_flatMap_eq_self defEnterPayload traceDefinition _
      (fun a _ => dp_traceDefinition a)]
    simp [defEnterPayload]

/-- C6: a Schema walk is the walk of the single combined Definition sequence
made of the schema's other types followed by its Query root, bracketed by
the schema's own enter and leave invocations (so the definition-list and
definition callbacks fire for it exactly as for a Document's definition
list), and the EnterDefinition callback sees exactly those definitions —
the other types in insertion order, the Query root last. -/
theorem c6_schema_combines_types_then_query (s : Schema) (log : List Event) :
    visitSchema loggerH log s =
      ((visitDefinitionList loggerH (log ++ [Event.enterSchema s])
          (s.types.map Definition.object ++ [Definition.object s.query])).1
        ++ [Event.leaveSchema s], none) ∧
    (visitSchema loggerH log s).1.filterMap defEnterPayload =
      log.filterMap defEnterPayload ++
        (s.types.map Definition.object ++ [Definition.object s.query]) := by
  constructor
  · rw [logger_visitSchema, logger_visitDefinitionList]
    simp [traceSchema]
  · rw [logger_visitSchema]
    simp [traceSchema, List.filterMap_append, defEnterPayload,
      dp_traceDefinitionList]

theorem dirp_traceDirectiveList (ch : List Directive) :
    (traceDirectiveList ch).filterMap dirEnterPayload = ch := by
  cases ch with
  | nil => rfl
  | cons d rest =>
    rw [traceDirectiveList, if_neg (by simp)]
    simp only [List.filterMap_cons, List.filterMap_append]
    rw [filterMap_flatMap_eq_self dirEnterPayload traceDirective _ (fun a _ => rfl)]
    simp [dirEnterPayload]

theorem ofdp_traceObjectFieldDefinitionList (ch : List ObjectFieldDefinition) :
    (traceObjectFieldDefinitionList ch).filterMap ofdEnterPayload = ch := by
  cases ch with
  | nil => rfl
  | cons d rest =>
    rw [traceObjectFieldDefinitionList, if_neg (by simp)]
    simp only [List.filterMap_cons, List.filterMap_append]
    rw [filterMap_flatMap_eq_self ofdEnterPayload traceObjectFieldDefinition _
      (fun a _ => rfl)]
    simp [ofdEnterPayload]

theorem traceSelection_head (s : Selection) :
    ∃ t, traceSelection s = Event.enterSelection s :: t := by
  cases s with
  | field f => exact ⟨_, rfl⟩
  | fragmentSpread f => exact ⟨_, rfl⟩
  | inlineFragment f => exact ⟨_, rfl⟩

theorem selOrder_loop (ch : SelectionList) :
    (ch.toList.map Event.enterSelection).Sublist (traceSelectionLoop ch) := by
  cases ch with
  | nil => simp [SelectionList.toList, traceSelectionLoop]
  | cons s rest =>
    have ih := selOrder_loop rest
    obtain ⟨t, ht⟩ := traceSelection_head s
    simp only [SelectionList.toList, List.map_cons, traceSelectionLoop, ht,
      List.cons_append]
    exact List.Sublist.cons₂ _ (ih.trans (List.sublist_append_right t _))
termination_by sizeOf ch

theorem selOrder_list (ch : SelectionList) :
    (ch.toList.map Event.enterSelection).Sublist (traceSelectionList ch) := by
  cases ch with
  | nil => simp [SelectionList.toList, traceSelectionList]
  | cons s rest =>
    have h := selOrder_loop (SelectionList.cons s rest)
    have h2 : ((SelectionList.cons s rest).toList.map Event.enterSelection).Sublist
        (traceSelection s ++ traceSelectionLoop rest) := by
      simpa [traceSelectionLoop] using h
    simp only [traceSelectionList]
    exact (h2.trans (List.sublist_append_left _ _)).cons _

/-- C9: elements of the ordered child sequences are entered in insertion
order: under the logger handler, the EnterDefinition invocations of a
Document walk list exactly the document's definitions in order; the
EnterSelection invocations for a selection list's own elements occur in
list order within the walk's trace; and the EnterDirective and
EnterObjectFieldDefinition invocations of a directive list or object field
definition list walk are exactly that list, in order. -/
theorem c9_insertion_order :
    (∀ (d : Document) (log : List Event),
      (visitDocument loggerH log d).1.filterMap defEnterPayload =
        log.filterMap defEnterPayload ++ d.definitions) ∧
    (∀ (ch : SelectionList) (log : List Event),
      (ch.toList.map Event.enterSelection).Sublist
        ((visitSelectionList loggerH log ch).1.drop log.length)) ∧
    (∀ (ch : List Directive) (log : List Event),
      (visitDirectiveList loggerH log ch).1.filterMap dirEnterPayload =
        log.filterMap dirEnterPayload ++ ch) ∧
    (∀ (ch : List ObjectFieldDefinition) (log : List Event),
      (visitObjectFieldDefinitionList loggerH log ch).1.filterMap ofdEnterPayload =
        log.filterMap ofdEnterPayload ++ ch) := by
  refine ⟨?_, ?_, ?_, ?_⟩
  · intro d log
    rw [logger_visitDocument]
    simp [traceDocument, List.filterMap_append, defEnterPayload,
      dp_traceDefinitionList]
  · intro ch log
    rw [logger_visitSelectionList ch log]
    simpa [List.drop_left] using selOrder_list ch
  · intro ch log
    rw [logger_visitDirectiveList]
    simp [List.filterMap_append, dirp_traceDirectiveList]
  · intro ch log
    rw [logger_visitObjectFieldDefinitionList]
    simp [List.filterMap_append, ofdp_traceObjectFieldDefinitionList]

/-! ### No walk reachable from the entry point ever invokes the
EnterSchemaQuery or LeaveSchemaQuery callbacks -/

theorem sqfilter_invokeWrap1 {α : Type} (f : Option (Callback α)) (ev : α → Event)
    (msg : String) (log : List Event) (v : α)
    (hev : isSchemaQueryEv (ev v) = false) :
    ((invokeWrap1 f ev msg log v).1).filter isSchemaQueryEv =
      log.filter isSchemaQueryEv := by
  cases f with
  | none => simp [invokeWrap1, invoke1]
  | some g =>
    cases hg : g log v <;>
      simp [invokeWrap1, invoke1, hg, List.filter_append, hev]

theorem sqfilter_invokeWrap0 (f : Option Callback0) (ev : Event) (msg : String)
    (log : List Event) (hev : isSchemaQueryEv ev = false) :
    ((invokeWrap0 f ev msg log).1).filter isSchemaQueryEv =
      log.filter isSchemaQueryEv := by
  cases f with
  | none => simp [invokeWrap0, invoke0]
  | some g =>
    cases hg : g log <;>
      simp [invokeWrap0, invoke0, hg, List.filter_append, hev]

theorem sqfilter_enterStep1 {α : Type} (f : Option (Callback α)) (ev : α → Event)
    (msg : String) (log : List Event) (v : α)
    (hev : isSchemaQueryEv (ev v) = false) :
    ((enterStep1 f ev msg log v).1).filter isSchemaQueryEv =
      log.filter isSchemaQueryEv := by
  cases f with
  | none => simp [enterStep1, invoke1]
  | some g =>
    cases hg : g log v with
    | none => simp [enterStep1, invoke1, hg, List.filter_append, hev]
    | some e =>
      cases he : isPruneError e <;>
        simp [enterStep1, invoke1, hg, he, List.filter_append, hev]

theorem sqfilter_enterStep0 (f : Option Callback0) (ev : Event) (msg : String)
    (log : List Event) (hev : isSchemaQueryEv ev = false) :
    ((enterStep0 f ev msg log).1).filter isSchemaQueryEv =
      log.filter isSchemaQueryEv := by
  cases f with
  | none => simp [enterStep0, invoke0]
  | some g =>
    cases hg : g log with
    | none => simp [enterStep0, invoke0, hg, List.filter_append, hev]
    | some e =>
      cases he : isPruneError e <;>
        simp [enterStep0, invoke0, hg, he, List.filter_append, hev]


theorem sq_visitDirective (h : Handler) (log : List Event) (v : Directive) :
    ((visitDirective h log v).1).filter isSchemaQueryEv = log.filter isSchemaQueryEv := by
  unfold visitDirective
  have h1 := sqfilter_invokeWrap1 h.EnterDirective Event.enterDirective "failed to visit directive (enter)" log v rfl
  rcases he : invokeWrap1 h.EnterDirective Event.enterDirective "failed to visit directive (enter)" log v with ⟨l, r⟩
  rw [he] at h1
  rcases r with _ | e
  · exact (sqfilter_invokeWrap1 h.LeaveDirective Event.leaveDirective "failed to visit directive (leave)" l v rfl).trans h1
  · exact h1


theorem sq_visitFragmentSpread (h : Handler) (log : List Event) (v : FragmentSpread) :
    ((visitFragmentSpread h log v).1).filter isSchemaQueryEv = log.filter isSchemaQueryEv := by
  unfold visitFragmentSpread
  have h1 := sqfilter_invokeWrap1 h.EnterFragmentSpread Event.enterFragmentSpread "failed to visit fragment spread (enter)" log v rfl
  rcases he : invokeWrap1 h.EnterFragmentSpread Event.enterFragmentSpread "failed to visit fragment spread (enter)" log v with ⟨l, r⟩
  rw [he] at h1
  rcases r with _ | e
  · exact (sqfilter_invokeWrap1 h.LeaveFragmentSpread Event.leaveFragmentSpread "failed to visit fragment spread (leave)" l v rfl).trans h1
  · exact h1


theorem sq_visitObjectFieldDefinition (h : Handler) (log : List Event) (v : ObjectFieldDefinition) :
    ((visitObjectFieldDefinition h log v).1).filter isSchemaQueryEv = log.filter isSchemaQueryEv := by
  unfold visitObjectFieldDefinition
  have h1 := sqfilter_invokeWrap1 h.EnterObjectFieldDefinition Event.enterObjectFieldDefinition "failed to visit object field definition (enter)" log v rfl
  rcases he : invokeWrap1 h.EnterObjectFieldDefinition Event.enterObjectFieldDefinition "failed to visit object field definition (enter)" log v with ⟨l, r⟩
  rw [he] at h1
  rcases r with _ | e
  · exact (sqfilter_invokeWrap1 h.LeaveObjectFieldDefinition Event.leaveObjectFieldDefinition "failed to visit object field definition (leave)" l v rfl).trans h1
  · exact h1


theorem sq_visitInterfaceFieldDefinition (h : Handler) (log : List Event) (v : InterfaceFieldDefinition) :
    ((visitInterfaceFieldDefinition h log v).1).filter isSchemaQueryEv = log.filter isSchemaQueryEv := by
  unfold visitInterfaceFieldDefinition
  have h1 := sqfilter_invokeWrap1 h.EnterInterfaceFieldDefinition Event.enterInterfaceFieldDefinition "failed to visit interface field definition (enter)" log v rfl
  rcases he : invokeWrap1 h.EnterInterfaceFieldDefinition Event.enterInterfaceFieldDefinition "failed to visit interface field definition (enter)" log v with ⟨l, r⟩
  rw [he] at h1
  rcases r with _ | e
  · exact (sqfilter_invokeWrap1 h.LeaveInterfaceFieldDefinition Event.leaveInterfaceFieldDefinition "failed to visit interface field definition (leave)" l v rfl).trans h1
  · exact h1


theorem sq_visitEnumDefinition (h : Handler) (log : List Event) (v : EnumDefinition) :
    ((visitEnumDefinition h log v).1).filter isSchemaQueryEv = log.filter isSchemaQueryEv := by
  unfold visitEnumDefinition
  have h1 := sqfilter_invokeWrap1 h.EnterEnumDefinition Event.enterEnumDefinition "failed to visit enum definition (enter)" log v rfl
  rcases he : invokeWrap1 h.EnterEnumDefinition Event.enterEnumDefinition "failed to visit enum definition (enter)" log v with ⟨l, r⟩
  rw [he] at h1
  rcases r with _ | e
  · exact (sqfilter_invokeWrap1 h.LeaveEnumDefinition Event.leaveEnumDefinition "failed to visit enum definition (leave)" l v rfl).trans h1
  · exact h1


theorem sq_visitUnionDefinition (h : Handler) (log : List Event) (v : UnionDefinition) :
    ((visitUnionDefinition h log v).1).filter isSchemaQueryEv = log.filter isSchemaQueryEv := by
  unfold visitUnionDefinition
  have h1 := sqfilter_invokeWrap1 h.EnterUnionDefinition Event.enterUnionDefinition "failed to visit union definition (enter)" log v rfl
  rcases he : invokeWrap1 h.EnterUnionDefinition Event.enterUnionDefinition "failed to visit union definition (enter)" log v with ⟨l, r⟩
  rw [he] at h1
  rcases r with _ | e
  · exact (sqfilter_invokeWrap1 h.LeaveUnionDefinition Event.leaveUnionDefinition "failed to visit union definition (leave)" l v rfl).trans h1
  · exact h1


theorem sq_visitInputFieldDefinition (h : Handler) (log : List Event) (v : InputFieldDefinition) :
    ((visitInputFieldDefinition h log v).1).filter isSchemaQueryEv = log.filter isSchemaQueryEv := by
  unfold visitInputFieldDefinition
  have h1 := sqfilter_invokeWrap1 h.EnterInputFieldDefinition Event.enterInputFieldDefinition "failed to visit input field definition (enter)" log v rfl
  rcases he : invokeWrap1 h.EnterInputFieldDefinition Event.enterInputFieldDefinition "failed to visit input field definition (enter)" log v with ⟨l, r⟩
  rw [he] at h1
  rcases r with _ | e
  · exact (sqfilter_invokeWrap1 h.LeaveInputFieldDefinition Event.leaveInputFieldDefinition "failed to visit input field definition (leave)" l v rfl).trans h1
  · exact h1


theorem sq_visitDirectiveListLoop (h : Handler) (ch : List Directive) :
    ∀ log, ((visitDirectiveListLoop h log ch).1).filter isSchemaQueryEv =
      log.filter isSchemaQueryEv := by
  induction ch with
  | nil => intro log; simp [visitDirectiveListLoop]
  | cons d rest ih =>
    intro log
    unfold visitDirectiveListLoop
    have h1 := sq_visitDirective h log d
    rcases hc : visitDirective h log d with ⟨l, r⟩
    rw [hc] at h1
    rcases r with _ | e
    · exact (ih l).trans h1
    · exact h1


theorem sq_visitDirectiveList (h : Handler) (log : List Event) (ch : List Directive) :
    ((visitDirectiveList h log ch).1).filter isSchemaQueryEv = log.filter isSchemaQueryEv := by
  unfold visitDirectiveList
  by_cases hch : ch.length = 0
  · rw [if_pos hch]
  · rw [if_neg hch]
    have h1 := sqfilter_invokeWrap0 h.EnterDirectiveList Event.enterDirectiveList "failed to visit directive list (enter)" log rfl
    rcases he : invokeWrap0 h.EnterDirectiveList Event.enterDirectiveList "failed to visit directive list (enter)" log with ⟨l, r⟩
    rw [he] at h1
    rcases r with _ | e
    · have h2 := sq_visitDirectiveListLoop h ch l
      rcases hc : visitDirectiveListLoop h l ch with ⟨l2, r2⟩
      rw [hc] at h2
      rcases r2 with _ | e2
      · simp only [hc]
        exact (sqfilter_invokeWrap0 h.LeaveDirectiveList Event.leaveDirectiveList "failed to visit directive list (leave)" l2 rfl).trans
          (h2.trans h1)
      · simp only [hc]
        exact h2.trans h1
    · exact h1


theorem sq_visitObjectFieldDefinitionListLoop (h : Handler) (ch : List ObjectFieldDefinition) :
    ∀ log, ((visitObjectFieldDefinitionListLoop h log ch).1).filter isSchemaQueryEv =
      log.filter isSchemaQueryEv := by
  induction ch with
  | nil => intro log; simp [visitObjectFieldDefinitionListLoop]
  | cons d rest ih =>
    intro log
    unfold visitObjectFieldDefinitionListLoop
    have h1 := sq_visitObjectFieldDefinition h log d
    rcases hc : visitObjectFieldDefinition h log d with ⟨l, r⟩
    rw [hc] at h1
    rcases r with _ | e
    · exact (ih l).trans h1
    · exact h1


theorem sq_visitObjectFieldDefinitionList (h : Handler) (log : List Event) (ch : List ObjectFieldDefinition) :
    ((visitObjectFieldDefinitionList h log ch).1).filter isSchemaQueryEv = log.filter isSchemaQueryEv := by
  unfold visitObjectFieldDefinitionList
  by_cases hch : ch.length = 0
  · rw [if_pos hch]
  · rw [if_neg hch]
    have h1 := sqfilter_invokeWrap0 h.EnterObjectFieldDefinitionList Event.enterObjectFieldDefinitionList "failed to visit object field definition list (enter)" log rfl
    rcases he : invokeWrap0 h.EnterObjectFieldDefinitionList Event.enterObjectFieldDefinitionList "failed to visit object field definition list (enter)" log with ⟨l, r⟩
    rw [he] at h1
    rcases r with _ | e
    · have h2 := sq_visitObjectFieldDefinitionListLoop h ch l
      rcases hc : visitObjectFieldDefinitionListLoop h l ch with ⟨l2, r2⟩
      rw [hc] at h2
      rcases r2 with _ | e2
      · simp only [hc]
        exact (sqfilter_invokeWrap0 h.LeaveObjectFieldDefinitionList Event.leaveObjectFieldDefinitionList "failed to visit object field definition list (leave)" l2 rfl).trans
          (h2.trans h1)
      · simp only [hc]
        exact h2.trans h1
    · exact h1


theorem sq_visitInterfaceDefinitionLoop (h : Handler) (ch : List InterfaceFieldDefinition) :
    ∀ log, ((visitInterfaceDefinitionLoop h log ch).1).filter isSchemaQueryEv =
      log.filter isSchemaQueryEv := by
  induction ch with
  | nil => intro log; simp [visitInterfaceDefinitionLoop]
  | cons d rest ih =>
    intro log
    unfold visitInterfaceDefinitionLoop
    have h1 := sq_visitInterfaceFieldDefinition h log d
    rcases hc : visitInterfaceFieldDefinition h log d with ⟨l, r⟩
    rw [hc] at h1
    rcases r with _ | e
    · exact (ih l).trans h1
    · exact h1


theorem sq_visitInputFieldDefinitionListLoop (h : Handler) (ch : List InputFieldDefinition) :
    ∀ log, ((visitInputFieldDefinitionListLoop h log ch).1).filter isSchemaQueryEv =
      log.filter isSchemaQueryEv := by
  induction ch with
  | nil => intro log; simp [visitInputFieldDefinitionListLoop]
  | cons d rest ih =>
    intro log
    unfold visitInputFieldDefinitionListLoop
    have h1 := sq_visitInputFieldDefinition h log d
    rcases hc : visitInputFieldDefinition h log d with ⟨l, r⟩
    rw [hc] at h1
    rcases r with _ | e
    · exact (ih l).trans h1
    · exact h1


theorem sq_visitInputFieldDefinitionList (h : Handler) (log : List Event)
    (ch : List InputFieldDefinition) :
    ((visitInputFieldDefinitionList h log ch).1).filter isSchemaQueryEv =
      log.filter isSchemaQueryEv := by
  unfold visitInputFieldDefinitionList
  have h1 := sqfilter_enterStep0 h.EnterInputFieldDefinitionList
    Event.enterInputFieldDefinitionList
    "failed to visit input field definition list (enter)" log rfl
  rcases he : enterStep0 h.EnterInputFieldDefinitionList
      Event.enterInputFieldDefinitionList
      "failed to visit input field definition list (enter)" log with ⟨l, r⟩
  rw [he] at h1
  rcases r with e | prune
  · exact h1
  · cases prune
    · have h2 := sq_visitInputFieldDefinitionListLoop h ch l
      rcases hc : visitInputFieldDefinitionListLoop h l ch with ⟨l2, r2⟩
      rw [hc] at h2
      rcases r2 with _ | e2
      · simp only [hc]
        exact (sqfilter_invokeWrap0 h.EnterInputFieldDefinitionList
          Event.enterInputFieldDefinitionList
          "failed to visit input field definition list (enter)" l2 rfl).trans
          (h2.trans h1)
      · simp only [hc]
        exact h2.trans h1
    · exact (sqfilter_invokeWrap0 h.EnterInputFieldDefinitionList
        Event.enterInputFieldDefinitionList
        "failed to visit input field definition list (enter)" l rfl).trans h1


theorem sq_visitObjectDefinition (h : Handler) (log : List Event) (v : ObjectDefinition) :
    ((visitObjectDefinition h log v).1).filter isSchemaQueryEv = log.filter isSchemaQueryEv := by
  unfold visitObjectDefinition
  have h1 := sqfilter_enterStep1 h.EnterObjectDefinition Event.enterObjectDefinition "failed to visit object definition (enter)" log v rfl
  rcases he : enterStep1 h.EnterObjectDefinition Event.enterObjectDefinition "failed to visit object definition (enter)" log v with ⟨l, r⟩
  rw [he] at h1
  rcases r with e | prune
  · exact h1
  · cases prune
    · have h2 := sq_visitObjectFieldDefinitionList h l v.fields
      rcases hc : visitObjectFieldDefinitionList h l v.fields with ⟨l2, r2⟩
      rw [hc] at h2
      rcases r2 with _ | e2
      · simp only [hc]
        exact (sqfilter_invokeWrap1 h.LeaveObjectDefinition Event.leaveObjectDefinition "failed to visit object definition (leave)" l2 v rfl).trans
          (h2.trans h1)
      · simp only [hc]
        exact h2.trans h1
    · exact (sqfilter_invokeWrap1 h.LeaveObjectDefinition Event.leaveObjectDefinition "failed to visit object definition (leave)" l v rfl).trans h1


theorem sq_visitInterfaceDefinition (h : Handler) (log : List Event) (v : InterfaceDefinition) :
    ((visitInterfaceDefinition h log v).1).filter isSchemaQueryEv = log.filter isSchemaQueryEv := by
  unfold visitInterfaceDefinition
  have h1 := sqfilter_enterStep1 h.EnterInterfaceDefinition Event.enterInterfaceDefinition "failed to visit interface definition (enter)" log v rfl
  rcases he : enterStep1 h.EnterInterfaceDefinition Event.enterInterfaceDefinition "failed to visit interface definition (enter)" log v with ⟨l, r⟩
  rw [he] at h1
  rcases r with e | prune
  · exact h1
  · cases prune
    · have h2 := sq_visitInterfaceDefinitionLoop h v.fields l
      rcases hc : visitInterfaceDefinitionLoop h l v.fields with ⟨l2, r2⟩
      rw [hc] at h2
      rcases r2 with _ | e2
      · simp only [hc]
        exact (sqfilter_invokeWrap1 h.LeaveInterfaceDefinition Event.leaveInterfaceDefinition "failed to visit interface definition (leave)" l2 v rfl).trans
          (h2.trans h1)
      · simp only [hc]
        exact h2.trans h1
    · exact (sqfilter_invokeWrap1 h.LeaveInterfaceDefinition Event.leaveInterfaceDefinition "failed to visit interface definition (leave)" l v rfl).trans h1


theorem sq_visitInputDefinition (h : Handler) (log : List Event) (v : InputDefinition) :
    ((visitInputDefinition h log v).1).filter isSchemaQueryEv = log.filter isSchemaQueryEv := by
  unfold visitInputDefinition
  have h1 := sqfilter_enterStep1 h.EnterInputDefinition Event.enterInputDefinition "failed to visit input definition (enter)" log v rfl
  rcases he : enterStep1 h.EnterInputDefinition Event.enterInputDefinition "failed to visit input definition (enter)" log v with ⟨l, r⟩
  rw [he] at h1
  rcases r with e | prune
  · exact h1
  · cases prune
    · have h2 := sq_visitInputFieldDefinitionList h l v.fields
      rcases hc : visitInputFieldDefinitionList h l v.fields with ⟨l2, r2⟩
      rw [hc] at h2
      rcases r2 with _ | e2
      · simp only [hc]
        exact (sqfilter_invokeWrap1 h.LeaveInputDefinition Event.leaveInputDefinition "failed to visit input definition (leave)" l2 v rfl).trans
          (h2.trans h1)
      · simp only [hc]
        exact h2.trans h1
    · exact (sqfilter_invokeWrap1 h.LeaveInputDefinition Event.leaveInputDefinition "failed to visit input definition (leave)" l v rfl).trans h1


mutual

theorem sq_visitSelection (v : Selection) :
    ∀ (h : Handler) (log : List Event),
      ((visitSelection h log v).1).filter isSchemaQueryEv =
        log.filter isSchemaQueryEv := by
  intro h log
  cases v with
  | field f =>
    have ihf := sq_visitSelectionField f
    unfold visitSelection
    have h1 := sqfilter_enterStep1 h.EnterSelection Event.enterSelection
      "failed to visit selection (enter)" log (Selection.field f) rfl
    rcases he : enterStep1 h.EnterSelection Event.enterSelection
        "failed to visit selection (enter)" log (Selection.field f) with ⟨l, r⟩
    rw [he] at h1
    rcases r with e | prune
    · exact h1
    · cases prune
      · have h2 := ihf h l
        rcases hc : visitSelectionField h l f with ⟨l2, r2⟩
        rw [hc] at h2
        rcases r2 with _ | e2
        · simp only [hc]
          exact (sqfilter_invokeWrap1 h.LeaveSelection Event.leaveSelection
            "failed to visit selection (leave)" l2 (Selection.field f) rfl).trans
            (h2.trans h1)
        · simp only [hc]
          exact h2.trans h1
      · exact (sqfilter_invokeWrap1 h.LeaveSelection Event.leaveSelection
          "failed to visit selection (leave)" l (Selection.field f) rfl).trans h1
  | fragmentSpread f =>
    unfold visitSelection
    have h1 := sqfilter_enterStep1 h.EnterSelection Event.enterSelection
      "failed to visit selection (enter)" log (Selection.fragmentSpread f) rfl
    rcases he : enterStep1 h.EnterSelection Event.enterSelection
        "failed to visit selection (enter)" log (Selection.fragmentSpread f) with ⟨l, r⟩
    rw [he] at h1
    rcases r with e | prune
    · exact h1
    · cases prune
      · have h2 := sq_visitFragmentSpread h l f
        rcases hc : visitFragmentSpread h l f with ⟨l2, r2⟩
        rw [hc] at h2
        rcases r2 with _ | e2
        · simp only [hc]
          exact (sqfilter_invokeWrap1 h.LeaveSelection Event.leaveSelection
            "failed to visit selection (leave)" l2 (Selection.fragmentSpread f) rfl).trans
            (h2.trans h1)
        · simp only [hc]
          exact h2.trans h1
      · exact (sqfilter_invokeWrap1 h.LeaveSelection Event.leaveSelection
          "failed to visit selection (leave)" l (Selection.fragmentSpread f) rfl).trans h1
  | inlineFragment f =>
    have ihf := sq_visitInlineFragment f
    unfold visitSelection
    have h1 := sqfilter_enterStep1 h.EnterSelection Event.enterSelection
      "failed to visit selection (enter)" log (Selection.inlineFragment f) rfl
    rcases he : enterStep1 h.EnterSelection Event.enterSelection
        "failed to visit selection (enter)" log (Selection.inlineFragment f) with ⟨l, r⟩
    rw [he] at h1
    rcases r with e | prune
    · exact h1
    · cases prune
      · have h2 := ihf h l
        rcases hc : visitInlineFragment h l f with ⟨l2, r2⟩
        rw [hc] at h2
        rcases r2 with _ | e2
        · simp only [hc]
          exact (sqfilter_invokeWrap1 h.LeaveSelection Event.leaveSelection
            "failed to visit selection (leave)" l2 (Selection.inlineFragment f) rfl).trans
            (h2.trans h1)
        · simp only [hc]
          exact h2.trans h1
      · exact (sqfilter_invokeWrap1 h.LeaveSelection Event.leaveSelection
          "failed to visit selection (leave)" l (Selection.inlineFragment f) rfl).trans h1
termination_by sizeOf v

theorem sq_visitSelectionField (v : SelectionField) :
    ∀ (h : Handler) (log : List Event),
      ((visitSelectionField h log v).1).filter isSchemaQueryEv =
        log.filter isSchemaQueryEv := by
  intro h log
  cases v with
  | mk n a args dirs sels =>
    have ihsl := sq_visitSelectionList sels
    unfold visitSelectionField
    have h1 := sqfilter_enterStep1 h.EnterSelectionField Event.enterSelectionField
      "failed to visit selection field (enter)" log (SelectionField.mk n a args dirs sels) rfl
    rcases he : enterStep1 h.EnterSelectionField Event.enterSelectionField
        "failed to visit selection field (enter)" log (SelectionField.mk n a args dirs sels) with ⟨l, r⟩
    rw [he] at h1
    rcases r with e | prune
    · exact h1
    · cases prune
      · have h2 := sq_visitDirectiveList h l dirs
        rcases hc : visitDirectiveList h l dirs with ⟨l2, r2⟩
        rw [hc] at h2
        rcases r2 with _ | e2
        · have h3 := ihsl h l2
          rcases hsel : visitSelectionList h l2 sels with ⟨l3, r3⟩
          rw [hsel] at h3
          rcases r3 with _ | e3
          · simp only [hc, hsel]
            exact (sqfilter_invokeWrap1 h.LeaveSelectionField Event.leaveSelectionField
              "failed to visit selection field (leave)" l3 (SelectionField.mk n a args dirs sels) rfl).trans (h3.trans (h2.trans h1))
          · simp only [hc, hsel]
            exact h3.trans (h2.trans h1)
        · simp only [hc]
          exact h2.trans h1
      · exact (sqfilter_invokeWrap1 h.LeaveSelectionField Event.leaveSelectionField
          "failed to visit selection field (leave)" l (SelectionField.mk n a args dirs sels) rfl).trans h1
termination_by sizeOf v

theorem sq_visitInlineFragment (v : InlineFragment) :
    ∀ (h : Handler) (log : List Event),
      ((visitInlineFragment h log v).1).filter isSchemaQueryEv =
        log.filter isSchemaQueryEv := by
  intro h log
  cases v with
  | mk t dirs sels =>
    have ihsl := sq_visitSelectionList sels
    unfold visitInlineFragment
    have h1 := sqfilter_enterStep1 h.EnterInlineFragment Event.enterInlineFragment
      "failed to visit inline fragment (enter)" log (InlineFragment.mk t dirs sels) rfl
    rcases he : enterStep1 h.EnterInlineFragment Event.enterInlineFragment
        "failed to visit inline fragment (enter)" log (InlineFragment.mk t dirs sels) with ⟨l, r⟩
    rw [he] at h1
    rcases r with e | prune
    · exact h1
    · cases prune
      · have h2 := sq_visitDirectiveList h l dirs
        rcases hc : visitDirectiveList h l dirs with ⟨l2, r2⟩
        rw [hc] at h2
        rcases r2 with _ | e2
        · have h3 := ihsl h l2
          rcases hsel : visitSelectionList h l2 sels with ⟨l3, r3⟩
          rw [hsel] at h3
          rcases r3 with _ | e3
          · simp only [hc, hsel]
            exact (sqfilter_invokeWrap1 h.LeaveInlineFragment Event.leaveInlineFragment
              "failed to visit inline fragment (leave)" l3 (InlineFragment.mk t dirs sels) rfl).trans (h3.trans (h2.trans h1))
          · simp only [hc, hsel]
            exact h3.trans (h2.trans h1)
        · simp only [hc]
          exact h2.trans h1
      · exact (sqfilter_invokeWrap1 h.LeaveInlineFragment Event.leaveInlineFragment
          "failed to visit inline fragment (leave)" l (InlineFragment.mk t dirs sels) rfl).trans h1
termination_by sizeOf v

theorem sq_visitSelectionList (ch : SelectionList) :
    ∀ (h : Handler) (log : List Event),
      ((visitSelectionList h log ch).1).filter isSchemaQueryEv =
        log.filter isSchemaQueryEv := by
  intro h log
  cases ch with
  | nil => simp [visitSelectionList]
  | cons s rest =>
    have ihs := sq_visitSelection s
    have ihr := sq_visitSelectionLoop rest
    unfold visitSelectionList
    have h1 := sqfilter_invokeWrap0 h.EnterSelectionList Event.enterSelectionList
      "failed to handle selection list (enter)" log rfl
    rcases he : invokeWrap0 h.EnterSelectionList Event.enterSelectionList
        "failed to handle selection list (enter)" log with ⟨l, r⟩
    rw [he] at h1
    rcases r with _ | e
    · have h2 := ihs h l
      rcases hc : visitSelection h l s with ⟨l2, r2⟩
      rw [hc] at h2
      rcases r2 with _ | e2
      · have h3 := ihr h l2
        rcases hloop : visitSelectionListLoop h l2 rest with ⟨l3, r3⟩
        rw [hloop] at h3
        rcases r3 with _ | e3
        · simp only [hc, hloop]
          exact (sqfilter_invokeWrap0 h.LeaveSelectionList Event.leaveSelectionList
            "failed to handle selection list (leave)" l3 rfl).trans
            (h3.trans (h2.trans h1))
        · simp only [hc, hloop]
          exact h3.trans (h2.trans h1)
      · simp only [hc]
        exact h2.trans h1
    · exact h1
termination_by sizeOf ch

theorem sq_visitSelectionLoop (ch : SelectionList) :
    ∀ (h : Handler) (log : List Event),
      ((visitSelectionListLoop h log ch).1).filter isSchemaQueryEv =
        log.filter isSchemaQueryEv := by
  intro h log
  cases ch with
  | nil => simp [visitSelectionListLoop]
  | cons s rest =>
    have ihs := sq_visitSelection s
    have ihr := sq_visitSelectionLoop rest
    unfold visitSelectionListLoop
    have h2 := ihs h log
    rcases hc : visitSelection h log s with ⟨l, r⟩
    rw [hc] at h2
    rcases r with _ | e
    · exact (ihr h l).trans h2
    · exact h2
termination_by sizeOf ch

end


theorem sq_visitOperationDefinition (h : Handler) (log : List Event) (v : OperationDefinition) :
    ((visitOperationDefinition h log v).1).filter isSchemaQueryEv = log.filter isSchemaQueryEv := by
  unfold visitOperationDefinition
  have h1 := sqfilter_enterStep1 h.EnterOperationDefinition Event.enterOperationDefinition "failed to visit operation definition (enter)" log v rfl
  rcases he : enterStep1 h.EnterOperationDefinition Event.enterOperationDefinition "failed to visit operation definition (enter)" log v with ⟨l, r⟩
  rw [he] at h1
  rcases r with e | prune
  · exact h1
  · cases prune
    · have h2 := sq_visitSelectionList v.selections h l
      rcases hc : visitSelectionList h l v.selections with ⟨l2, r2⟩
      rw [hc] at h2
      rcases r2 with _ | e2
      · simp only [hc]
        exact (sqfilter_invokeWrap1 h.LeaveOperationDefinition Event.leaveOperationDefinition "failed to visit operation definition (leave)" l2 v rfl).trans
          (h2.trans h1)
      · simp only [hc]
        exact h2.trans h1
    · exact (sqfilter_invokeWrap1 h.LeaveOperationDefinition Event.leaveOperationDefinition "failed to visit operation definition (leave)" l v rfl).trans h1


theorem sq_visitFragmentDefinition (h : Handler) (log : List Event)
    (v : FragmentDefinition) :
    ((visitFragmentDefinition h log v).1).filter isSchemaQueryEv =
      log.filter isSchemaQueryEv := by
  unfold visitFragmentDefinition
  have h1 := sqfilter_enterStep1 h.EnterFragmentDefinition
    Event.enterFragmentDefinition "failed to visit fragment definition (enter)"
    log v rfl
  rcases he : enterStep1 h.EnterFragmentDefinition Event.enterFragmentDefinition
      "failed to visit fragment definition (enter)" log v with ⟨l, r⟩
  rw [he] at h1
  rcases r with e | prune
  · exact h1
  · cases prune
    · have h2 := sq_visitDirectiveList h l v.directives
      rcases hc : visitDirectiveList h l v.directives with ⟨l2, r2⟩
      rw [hc] at h2
      rcases r2 with _ | e2
      · have h3 := sq_visitSelectionList v.selections h l2
        rcases hsel : visitSelectionList h l2 v.selections with ⟨l3, r3⟩
        rw [hsel] at h3
        rcases r3 with _ | e3
        · simp only [hc, hsel]
          exact (sqfilter_invokeWrap1 h.LeaveFragmentDefinition
            Event.leaveFragmentDefinition
            "failed to visit fragment definition (leave)" l3 v rfl).trans
            (h3.trans (h2.trans h1))
        · simp only [hc, hsel]
          exact h3.trans (h2.trans h1)
      · simp only [hc]
        exact h2.trans h1
    · exact (sqfilter_invokeWrap1 h.LeaveFragmentDefinition
        Event.leaveFragmentDefinition
        "failed to visit fragment definition (leave)" l v rfl).trans h1


theorem sq_visitDefinition (h : Handler) (log : List Event) (v : Definition) :
    ((visitDefinition h log v).1).filter isSchemaQueryEv =
      log.filter isSchemaQueryEv := by
  cases v with
  | operation o =>
    unfold visitDefinition
    have h1 := sqfilter_enterStep1 h.EnterDefinition Event.enterDefinition
      "failed to visit definition (enter)" log (Definition.operation o) rfl
    rcases he : enterStep1 h.EnterDefinition Event.enterDefinition
        "failed to visit definition (enter)" log (Definition.operation o) with ⟨l, r⟩
    rw [he] at h1
    rcases r with e | prune
    · exact h1
    · cases prune
      · have h2 := sq_visitOperationDefinition h l o
        rcases hc : visitOperationDefinition h l o with ⟨l2, r2⟩
        rw [hc] at h2
        rcases r2 with _ | e2
        · simp only [hc]
          exact (sqfilter_invokeWrap1 h.LeaveDefinition Event.leaveDefinition
            "failed to visit definition (leave)" l2 (Definition.operation o) rfl).trans
            (h2.trans h1)
        · simp only [hc]
          exact h2.trans h1
      · exact (sqfilter_invokeWrap1 h.LeaveDefinition Event.leaveDefinition
          "failed to visit definition (leave)" l (Definition.operation o) rfl).trans h1
  | fragment f =>
    unfold visitDefinition
    have h1 := sqfilter_enterStep1 h.EnterDefinition Event.enterDefinition
      "failed to visit definition (enter)" log (Definition.fragment f) rfl
    rcases he : enterStep1 h.EnterDefinition Event.enterDefinition
        "failed to visit definition (enter)" log (Definition.fragment f) with ⟨l, r⟩
    rw [he] at h1
    rcases r with e | prune
    · exact h1
    · cases prune
      · have h2 := sq_visitFragmentDefinition h l f
        rcases hc : visitFragmentDefinition h l f with ⟨l2, r2⟩
        rw [hc] at h2
        rcases r2 with _ | e2
        · simp only [hc]
          exact (sqfilter_invokeWrap1 h.LeaveDefinition Event.leaveDefinition
            "failed to visit definition (leave)" l2 (Definition.fragment f) rfl).trans
            (h2.trans h1)
        · simp only [hc]
          exact h2.trans h1
      · exact (sqfilter_invokeWrap1 h.LeaveDefinition Event.leaveDefinition
          "failed to visit definition (leave)" l (Definition.fragment f) rfl).trans h1
  | object o =>
    unfold visitDefinition
    have h1 := sqfilter_enterStep1 h.EnterDefinition Event.enterDefinition
      "failed to visit definition (enter)" log (Definition.object o) rfl
    rcases he : enterStep1 h.EnterDefinition Event.enterDefinition
        "failed to visit definition (enter)" log (Definition.object o) with ⟨l, r⟩
    rw [he] at h1
    rcases r with e | prune
    · exact h1
    · cases prune
      · have h2 := sq_visitObjectDefinition h l o
        rcases hc : visitObjectDefinition h l o with ⟨l2, r2⟩
        rw [hc] at h2
        rcases r2 with _ | e2
        · simp only [hc]
          exact (sqfilter_invokeWrap1 h.LeaveDefinition Event.leaveDefinition
            "failed to visit definition (leave)" l2 (Definition.object o) rfl).trans
            (h2.trans h1)
        · simp only [hc]
          exact h2.trans h1
      · exact (sqfilter_invokeWrap1 h.LeaveDefinition Event.leaveDefinition
          "failed to visit definition (leave)" l (Definition.object o) rfl).trans h1
  | iface i =>
    unfold visitDefinition
    have h1 := sqfilter_enterStep1 h.EnterDefinition Event.enterDefinition
      "failed to visit definition (enter)" log (Definition.iface i) rfl
    rcases he : enterStep1 h.EnterDefinition Event.enterDefinition
        "failed to visit definition (enter)" log (Definition.iface i) with ⟨l, r⟩
    rw [he] at h1
    rcases r with e | prune
    · exact h1
    · cases prune
      · have h2 := sq_visitInterfaceDefinition h l i
        rcases hc : visitInterfaceDefinition h l i with ⟨l2, r2⟩
        rw [hc] at h2
        rcases r2 with _ | e2
        · simp only [hc]
          exact (sqfilter_invokeWrap1 h.LeaveDefinition Event.leaveDefinition
            "failed to visit definition (leave)" l2 (Definition.iface i) rfl).trans
            (h2.trans h1)
        · simp only [hc]
          exact h2.trans h1
      · exact (sqfilter_invokeWrap1 h.LeaveDefinition Event.leaveDefinition
          "failed to visit definition (leave)" l (Definition.iface i) rfl).trans h1
  | enum e0 =>
    unfold visitDefinition
    have h1 := sqfilter_enterStep1 h.EnterDefinition Event.enterDefinition
      "failed to visit definition (enter)" log (Definition.enum e0) rfl
    rcases he : enterStep1 h.EnterDefinition Event.enterDefinition
        "failed to visit definition (enter)" log (Definition.enum e0) with ⟨l, r⟩
    rw [he] at h1
    rcases r with e | prune
    · exact h1
    · cases prune
      · have h2 := sq_visitEnumDefinition h l e0
        rcases hc : visitEnumDefinition h l e0 with ⟨l2, r2⟩
        rw [hc] at h2
        rcases r2 with _ | e2
        · simp only [hc]
          exact (sqfilter_invokeWrap1 h.LeaveDefinition Event.leaveDefinition
            "failed to visit definition (leave)" l2 (Definition.enum e0) rfl).trans
            (h2.trans h1)
        · simp only [hc]
          exact h2.trans h1
      · exact (sqfilter_invokeWrap1 h.LeaveDefinition Event.leaveDefinition
          "failed to visit definition (leave)" l (Definition.enum e0) rfl).trans h1
  | union u =>
    unfold visitDefinition
    have h1 := sqfilter_enterStep1 h.EnterDefinition Event.enterDefinition
      "failed to visit definition (enter)" log (Definition.union u) rfl
    rcases he : enterStep1 h.EnterDefinition Event.enterDefinition
        "failed to visit definition (enter)" log (Definition.union u) with ⟨l, r⟩
    rw [he] at h1
    rcases r with e | prune
    · exact h1
    · cases prune
      · have h2 := sq_visitUnionDefinition h l u
        rcases hc : visitUnionDefinition h l u with ⟨l2, r2⟩
        rw [hc] at h2
        rcases r2 with _ | e2
        · simp only [hc]
          exact (sqfilter_invokeWrap1 h.LeaveDefinition Event.leaveDefinition
            "failed to visit definition (leave)" l2 (Definition.union u) rfl).trans
            (h2.trans h1)
        · simp only [hc]
          exact h2.trans h1
      · exact (sqfilter_invokeWrap1 h.LeaveDefinition Event.leaveDefinition
          "failed to visit definition (leave)" l (Definition.union u) rfl).trans h1
  | input i =>
    unfold visitDefinition
    have h1 := sqfilter_enterStep1 h.EnterDefinition Event.enterDefinition
      "failed to visit definition (enter)" log (Definition.input i) rfl
    rcases he : enterStep1 h.EnterDefinition Event.enterDefinition
        "failed to visit definition (enter)" log (Definition.input i) with ⟨l, r⟩
    rw [he] at h1
    rcases r with e | prune
    · exact h1
    · cases prune
      · have h2 := sq_visitInputDefinition h l i
        rcases hc : visitInputDefinition h l i with ⟨l2, r2⟩
        rw [hc] at h2
        rcases r2 with _ | e2
        · simp only [hc]
          exact (sqfilter_invokeWrap1 h.LeaveDefinition Event.leaveDefinition
            "failed to visit definition (leave)" l2 (Definition.input i) rfl).trans
            (h2.trans h1)
        · simp only [hc]
          exact h2.trans h1
      · exact (sqfilter_invokeWrap1 h.LeaveDefinition Event.leaveDefinition
          "failed to visit definition (leave)" l (Definition.input i) rfl).trans h1


theorem sq_visitDefinitionListLoop (h : Handler) (ch : List Definition) :
    ∀ log, ((visitDefinitionListLoop h log ch).1).filter isSchemaQueryEv =
      log.filter isSchemaQueryEv := by
  induction ch with
  | nil => intro log; simp [visitDefinitionListLoop]
  | cons d rest ih =>
    intro log
    unfold visitDefinitionListLoop
    have h1 := sq_visitDefinition h log d
    rcases hc : visitDefinition h log d with ⟨l, r⟩
    rw [hc] at h1
    rcases r with _ | e
    · exact (ih l).trans h1
    · exact h1

theorem sq_visitDefinitionList (h : Handler) (log : List Event)
    (ch : List Definition) :
    ((visitDefinitionList h log ch).1).filter isSchemaQueryEv =
      log.filter isSchemaQueryEv := by
  unfold visitDefinitionList
  by_cases hch : ch.length = 0
  · rw [if_pos hch]
  · rw [if_neg hch]
    have h1 := sqfilter_invokeWrap0 h.EnterDefinitionList Event.enterDefinitionList
      "failed to handle definition list (enter)" log rfl
    rcases he : invokeWrap0 h.EnterDefinitionList Event.enterDefinitionList
        "failed to handle definition list (enter)" log with ⟨l, r⟩
    rw [he] at h1
    rcases r with _ | e
    · have h2 := sq_visitDefinitionListLoop h ch l
      rcases hc : visitDefinitionListLoop h l ch with ⟨l2, r2⟩
      rw [hc] at h2
      rcases r2 with _ | e2
      · simp only [hc]
        exact (sqfilter_invokeWrap0 h.LeaveDefinitionList
          Event.leaveDefinitionList
          "failed to handle definition list (leave)" l2 rfl).trans
          (h2.trans h1)
      · simp only [hc]
        exact h2.trans h1
    · exact h1


theorem sq_visitDocument (h : Handler) (log : List Event) (v : Document) :
    ((visitDocument h log v).1).filter isSchemaQueryEv = log.filter isSchemaQueryEv := by
  unfold visitDocument
  have h1 := sqfilter_enterStep1 h.EnterDocument Event.enterDocument "failed to visit document (enter)" log v rfl
  rcases he : enterStep1 h.EnterDocument Event.enterDocument "failed to visit document (enter)" log v with ⟨l, r⟩
  rw [he] at h1
  rcases r with e | prune
  · exact h1
  · cases prune
    · have h2 := sq_visitDefinitionList h l v.definitions
      rcases hc : visitDefinitionList h l v.definitions with ⟨l2, r2⟩
      rw [hc] at h2
      rcases r2 with _ | e2
      · simp only [hc]
        exact (sqfilter_invokeWrap1 h.LeaveDocument Event.leaveDocument "failed to visit document (leave)" l2 v rfl).trans
          (h2.trans h1)
      · simp only [hc]
        exact h2.trans h1
    · exact (sqfilter_invokeWrap1 h.LeaveDocument Event.leaveDocument "failed to visit document (leave)" l v rfl).trans h1


theorem sq_visitSchema (h : Handler) (log : List Event) (v : Schema) :
    ((visitSchema h log v).1).filter isSchemaQueryEv = log.filter isSchemaQueryEv := by
  unfold visitSchema
  have h1 := sqfilter_enterStep1 h.EnterSchema Event.enterSchema "failed to visit document (enter)" log v rfl
  rcases he : enterStep1 h.EnterSchema Event.enterSchema "failed to visit document (enter)" log v with ⟨l, r⟩
  rw [he] at h1
  rcases r with e | prune
  · exact h1
  · cases prune
    · have h2 := sq_visitDefinitionList h l (v.types.map Definition.object ++ [Definition.object v.query])
      rcases hc : visitDefinitionList h l (v.types.map Definition.object ++ [Definition.object v.query]) with ⟨l2, r2⟩
      rw [hc] at h2
      rcases r2 with _ | e2
      · simp only [hc]
        exact (sqfilter_invokeWrap1 h.LeaveSchema Event.leaveSchema "failed to visit document (leave)" l2 v rfl).trans
          (h2.trans h1)
      · simp only [hc]
        exact h2.trans h1
    · exact (sqfilter_invokeWrap1 h.LeaveSchema Event.leaveSchema "failed to visit document (leave)" l v rfl).trans h1


/-- C10: no walk started at the entry point ever invokes the
EnterSchemaQuery or LeaveSchemaQuery callbacks, whatever the handler and
the input — visitSchemaQuery is unreachable from Visit — and the Schema's
Query-root ObjectDefinition is instead dispatched through the generic
Definition path, triggering the EnterObjectDefinition callback for it. -/
theorem c10_schema_query_callbacks_never_fire :
    (∀ (h : Handler) (inp : VisitInput),
      ((Visit h [] inp).1).filter isSchemaQueryEv = []) ∧
    (∀ s : Schema,
      Event.enterObjectDefinition s.query ∈ (visitSchema loggerH [] s).1) := by
  constructor
  · intro h inp
    cases inp with
    | document d => simpa using sq_visitDocument h [] d
    | schema sc => simpa using sq_visitSchema h [] sc
    | other desc => simp [Visit]
  · intro s
    have h2 : Event.enterObjectDefinition s.query ∈
        traceDefinition (Definition.object s.query) := by
      simp [traceDefinition, traceObjectDefinition]
    have h3 : Event.enterObjectDefinition s.query ∈
        traceDefinitionList
          (s.types.map Definition.object ++ [Definition.object s.query]) := by
      rw [traceDefinitionList, if_neg (by simp)]
      simp only [List.mem_cons, List.mem_append, List.mem_flatMap]
      exact Or.inr (Or.inl ⟨Definition.object s.query, by simp, h2⟩)
    rw [logger_visitSchema]
    simp only [List.nil_append, traceSchema, List.mem_cons, List.mem_append]
    exact Or.inr (Or.inl h3)

end GraphQL
